import Mathlib

/-!
# Liquid Backend — shallow embedding of the hierarchy store and its operations

This file embeds the DynamoDB-backed multi-tenant data catalog of the
repository (`src/src/functions/...` handlers and `src/scripts/admin/...`
administrative scripts) as pure Lean functions over an explicit store state,
and proves the specification claims about creation, cascade deletion and
orphan repair against that embedding.

Modelling conventions:
* Each DynamoDB table is a list of rows; `scan`/`query` with a filter or key
  condition is `List.filter` in storage order, and a paginated query that is
  followed to exhaustion returns the whole filtered list.
* `put_item` overwrites by key; every writer in this repository calls it with
  a freshly generated uuid-based id, so the embedding appends the row.
* `delete_item` removes the row with the given key; on the list model it
  filters the id out (uniqueness of ids is a hypothesis where it matters).
* `generate_id` (uuid4-based in `src/src/lib/common_utils.py`) is modelled by
  a fresh-id counter carried in the state.
* The S3 blob store is a list of object keys; `delete_object` removes a key
  and succeeds when the key is absent, as in S3.
* Exceptions raised by the Python code are `Except` errors tagged with the
  spec's error taxonomy (§7) according to the message at the raise site.
-/

namespace Liquid

/-- Error taxonomy of the spec (§7).  The Python source raises generic
exceptions; each raise site's message classifies it into one of these kinds. -/
inductive Err where
  | ValidationError : String → Err
  | NotFoundError : String → Err
  | ConflictError : String → Err
  | AuthorizationError : String → Err
deriving DecidableEq

/-- A row of the user table. -/
structure UserRow where
  id : String
  email : String
deriving DecidableEq

/-- A row of the account link table. -/
structure AccountRow where
  id : String
  user_id : String
  workspace_id : String
  user_is_workspace_admin : Bool
deriving DecidableEq

/-- A row of the workspace table. -/
structure WorkspaceRow where
  id : String
  name : String
deriving DecidableEq

/-- A row of the path table. -/
structure PathRow where
  id : String
  workspace_id : String
  name : String
  normalized_name : String
deriving DecidableEq

/-- A row of the component table. -/
structure ComponentRow where
  id : String
  workspace_id : String
  path_id : String
  name : String
  has_data : Bool
  has_action : Bool
deriving DecidableEq

/-- A row of the data table.  `workspace_id` is an `Option` because the older
bulk handler writes rows without that attribute (a row lacking the attribute
is absent from the sparse `WorkspaceDataIndex`).  `s3_location` is set
asynchronously after creation. -/
structure DataRow where
  id : String
  component_id : String
  workspace_id : Option String
  data : String
  data_map : String
  s3_location : Option String
  addToDataLake : Bool
deriving DecidableEq

/-- The whole persisted state: the six tables, the blob bucket (a list of
object keys) and the fresh-id counter that models uuid generation. -/
structure DB where
  users : List UserRow
  accounts : List AccountRow
  workspaces : List WorkspaceRow
  paths : List PathRow
  components : List ComponentRow
  dataRows : List DataRow
  blobs : List String
  nextId : Nat
deriving DecidableEq

/-- Model of `generate_id` of `src/src/lib/common_utils.py`: a prefix-tagged globally
unique id.  The uuid4 token is modelled by the state's fresh counter. -/
def generate_id (kind : String) (db : DB) : String × DB :=
  (kind ++ "-" ++ toString db.nextId, { db with nextId := db.nextId + 1 })

/-- Sequentially `delete_item` every listed row by its id (the shape of each
`for item in items: table.delete_item(Key=item fields id)` loop). -/
def delete_each (getId : α → String) (items rows : List α) : List α :=
  items.foldl (fun rs i => rs.filter (fun r => !(getId r == getId i))) rows

/-- Best-effort `s3.delete_object` for every data entry carrying an
`s3_location`.  S3 deletion succeeds also when the key is absent, and the
scripts log-and-continue past client errors, so removal never aborts. -/
def remove_blob_locations (data_entries : List DataRow) (blobs : List String) : List String :=
  data_entries.foldl
    (fun bs d =>
      match d.s3_location with
      | some loc => bs.filter (fun k => !(k == loc))
      | none => bs)
    blobs

/-- The `delete_s3_objects` guard used by the admin scripts: skip blob
deletion entirely when the `--skip-s3` flag disabled it. -/
def delete_s3_objects (delete_s3 : Bool) (data_entries : List DataRow)
    (blobs : List String) : List String :=
  if delete_s3 then remove_blob_locations data_entries blobs else blobs

/-- Name normalization used for path uniqueness: lowercase, spaces replaced
with hyphens (`path_name.lower().replace(space, hyphen)` in both handlers). -/
def normalize_name (name : String) : String :=
  String.mk (name.data.map (fun c =>
    let lc := c.toLower
    if lc == ' ' then '-' else lc))

/-- One entry of the bulk-create request's `data` list: a payload and its
side-channel `dataMap`. -/
structure DataEvent where
  data : String
  dataMap : String
deriving DecidableEq

/-- The validated input of the bulk-create handlers (all required fields
present; the handlers fail fast on missing fields before touching the store). -/
structure BulkInput where
  admin_email : String
  workspace_name : String
  path_name : String
  component_name : String
  data : List DataEvent
  addToDataLake : Bool
deriving DecidableEq

/-- The result record returned by the bulk-create handlers. -/
structure BulkResult where
  workspace_id : String
  path_id : String
  component_id : String
  created_data_ids : List String
  workspace_created : Bool
  path_created : Bool
  component_created : Bool
deriving DecidableEq

namespace bulk_data_handler

/-- Model of `get_admin_user` of `bulk_data_handler.py`: scan the user table by email,
fail if absent (a `NotFoundError` in the spec's taxonomy). -/
def get_admin_user (email : String) (db : DB) : Except Err String :=
  match db.users.filter (fun u => u.email == email) with
  | [] => .error (.NotFoundError ("Admin user with email " ++ email ++
      " not found. Please create the user first."))
  | u :: _ => .ok u.id

/-- Model of `create_workspace` of `bulk_data_handler.py`. -/
def create_workspace (name : String) (db : DB) : String × DB :=
  let (workspace_id, db1) := generate_id "ws" db
  (workspace_id,
    { db1 with workspaces := db1.workspaces ++ [{ id := workspace_id, name := name }] })

/-- Model of `create_account` of `bulk_data_handler.py`. -/
def create_account (user_id workspace_id : String) (is_admin : Bool) (db : DB) :
    String × DB :=
  let (account_id, db1) := generate_id "acc" db
  (account_id,
    { db1 with accounts := db1.accounts ++
        [{ id := account_id, user_id := user_id, workspace_id := workspace_id,
           user_is_workspace_admin := is_admin }] })

/-- Model of `get_or_create_workspace` of `bulk_data_handler.py`: scan workspaces by
name; if one is found, check the requesting user's account on the FIRST
returned item and fail unless it marks the user as admin; otherwise create
the workspace and an admin account. -/
def get_or_create_workspace (user_id workspace_name : String) (db : DB) :
    Except Err (String × Bool) × DB :=
  match db.workspaces.filter (fun w => w.name == workspace_name) with
  | workspace :: _ =>
    match db.accounts.filter
        (fun a => a.user_id == user_id && a.workspace_id == workspace.id) with
    | [] =>
      (.error (.AuthorizationError
        ("User is not associated with workspace " ++ workspace_name)), db)
    | account :: _ =>
      if account.user_is_workspace_admin then (.ok (workspace.id, false), db)
      else
        (.error (.AuthorizationError
          ("User is not an admin of workspace " ++ workspace_name)), db)
  | [] =>
    let (workspace_id, db1) := create_workspace workspace_name db
    let (_, db2) := create_account user_id workspace_id true db1
    (.ok (workspace_id, true), db2)

/-- Model of `get_or_create_path` of `bulk_data_handler.py`: query the
`WorkspacePathIndex` by (workspace_id, normalized_name); return the match if
any, else create the path. -/
def get_or_create_path (workspace_id path_name : String) (db : DB) :
    Except Err (String × Bool) × DB :=
  let normalized_name := normalize_name path_name
  match db.paths.filter
      (fun p => p.workspace_id == workspace_id && p.normalized_name == normalized_name) with
  | p :: _ => (.ok (p.id, false), db)
  | [] =>
    let (path_id, db1) := generate_id "path" db
    (.ok (path_id, true),
      { db1 with paths := db1.paths ++
          [{ id := path_id, workspace_id := workspace_id, name := path_name,
             normalized_name := normalized_name }] })

/-- Model of `get_or_create_component` of `bulk_data_handler.py`: query the
`PathComponentIndex` by (path_id, name); return the match if any, else create
the component with the denormalized workspace_id. -/
def get_or_create_component (workspace_id path_id component_name : String) (db : DB) :
    Except Err (String × Bool) × DB :=
  match db.components.filter
      (fun c => c.path_id == path_id && c.name == component_name) with
  | c :: _ => (.ok (c.id, false), db)
  | [] =>
    let (component_id, db1) := generate_id "comp" db
    (.ok (component_id, true),
      { db1 with components := db1.components ++
          [{ id := component_id, workspace_id := workspace_id, path_id := path_id,
             name := component_name, has_data := true, has_action := false }] })

/-- Model of `create_data_entries` of `bulk_data_handler.py`: one data row per event.
NOTE: this older handler does NOT write the denormalized `workspace_id`
attribute onto the data row. -/
def create_data_entries (component_id : String) (data_events : List DataEvent)
    (add_to_data_lake : Bool) (db : DB) : List String × DB :=
  match data_events with
  | [] => ([], db)
  | event :: rest =>
    let (data_id, db1) := generate_id "data" db
    let db2 := { db1 with dataRows := db1.dataRows ++
        [{ id := data_id, component_id := component_id, workspace_id := none,
           data := event.data, data_map := event.dataMap, s3_location := none,
           addToDataLake := add_to_data_lake }] }
    let (ids, db3) := create_data_entries component_id rest add_to_data_lake db2
    (data_id :: ids, db3)

/-- The `handler` of `bulk_data_handler.py` on a validated input: resolve the
admin user, chain the three get-or-create steps, then append the data rows. -/
def handler (input : BulkInput) (db : DB) : Except Err BulkResult × DB :=
  match get_admin_user input.admin_email db with
  | .error e => (.error e, db)
  | .ok user_id =>
    match get_or_create_workspace user_id input.workspace_name db with
    | (.error e, db1) => (.error e, db1)
    | (.ok (workspace_id, workspace_created), db1) =>
      match get_or_create_path workspace_id input.path_name db1 with
      | (.error e, db2) => (.error e, db2)
      | (.ok (path_id, path_created), db2) =>
        match get_or_create_component workspace_id path_id input.component_name db2 with
        | (.error e, db3) => (.error e, db3)
        | (.ok (component_id, component_created), db3) =>
          let (created_data_ids, db4) :=
            create_data_entries component_id input.data input.addToDataLake db3
          (.ok { workspace_id := workspace_id, path_id := path_id,
                 component_id := component_id, created_data_ids := created_data_ids,
                 workspace_created := workspace_created, path_created := path_created,
                 component_created := component_created }, db4)

end bulk_data_handler

namespace post_bulk_data_handler

/-- Model of `check_workspace_name_conflicts` of `post_bulk_data_handler.py`: fail with
a `ConflictError` if the user already has an account in any workspace with
this name. -/
def check_workspace_name_conflicts (user_id workspace_name : String) (db : DB) :
    Except Err Unit :=
  if db.workspaces.any (fun w => w.name == workspace_name &&
      db.accounts.any (fun a => a.user_id == user_id && a.workspace_id == w.id)) then
    .error (.ConflictError
      ("User already has access to a workspace named " ++ workspace_name))
  else .ok ()

/-- Model of `get_admin_user` of `post_bulk_data_handler.py` (same as the bulk one). -/
def get_admin_user (email : String) (db : DB) : Except Err String :=
  match db.users.filter (fun u => u.email == email) with
  | [] => .error (.NotFoundError ("Admin user with email " ++ email ++
      " not found. Please create the user first."))
  | u :: _ => .ok u.id

/-- Model of `check_path_name_exists` of `post_bulk_data_handler.py`: does a path with
the same (workspace_id, normalized_name) already exist? -/
def check_path_name_exists (workspace_id path_name : String) (db : DB) : Bool :=
  db.paths.any (fun p =>
    p.workspace_id == workspace_id && p.normalized_name == normalize_name path_name)

/-- Model of `check_component_name_exists` of `post_bulk_data_handler.py`. -/
def check_component_name_exists (path_id component_name : String) (db : DB) : Bool :=
  db.components.any (fun c => c.path_id == path_id && c.name == component_name)

/-- Model of `create_workspace` of `post_bulk_data_handler.py`. -/
def create_workspace (name : String) (db : DB) : String × DB :=
  let (workspace_id, db1) := generate_id "ws" db
  (workspace_id,
    { db1 with workspaces := db1.workspaces ++ [{ id := workspace_id, name := name }] })

/-- Model of `create_account` of `post_bulk_data_handler.py`. -/
def create_account (user_id workspace_id : String) (is_admin : Bool) (db : DB) :
    String × DB :=
  let (account_id, db1) := generate_id "acc" db
  (account_id,
    { db1 with accounts := db1.accounts ++
        [{ id := account_id, user_id := user_id, workspace_id := workspace_id,
           user_is_workspace_admin := is_admin }] })

/-- Model of `get_or_create_workspace` of `post_bulk_data_handler.py`: first run the
name-conflict check, then the same scan/authorize/create flow as the bulk
handler. -/
def get_or_create_workspace (user_id workspace_name : String) (db : DB) :
    Except Err (String × Bool) × DB :=
  match check_workspace_name_conflicts user_id workspace_name db with
  | .error e => (.error e, db)
  | .ok _ =>
    match db.workspaces.filter (fun w => w.name == workspace_name) with
    | workspace :: _ =>
      match db.accounts.filter
          (fun a => a.user_id == user_id && a.workspace_id == workspace.id) with
      | [] =>
        (.error (.AuthorizationError
          ("User is not associated with workspace " ++ workspace_name)), db)
      | account :: _ =>
        if account.user_is_workspace_admin then (.ok (workspace.id, false), db)
        else
          (.error (.AuthorizationError
            ("User is not an admin of workspace " ++ workspace_name)), db)
    | [] =>
      let (workspace_id, db1) := create_workspace workspace_name db
      let (_, db2) := create_account user_id workspace_id true db1
      (.ok (workspace_id, true), db2)

/-- Model of `get_or_create_path` of `post_bulk_data_handler.py`: unlike the bulk
variant, this one FAILS with a `ConflictError` when the normalized name
already exists, and otherwise always creates. -/
def get_or_create_path (workspace_id path_name : String) (db : DB) :
    Except Err (String × Bool) × DB :=
  if check_path_name_exists workspace_id path_name db then
    (.error (.ConflictError
      ("Path named " ++ path_name ++ " already exists in this workspace")), db)
  else
    let (path_id, db1) := generate_id "path" db
    (.ok (path_id, true),
      { db1 with paths := db1.paths ++
          [{ id := path_id, workspace_id := workspace_id, name := path_name,
             normalized_name := normalize_name path_name }] })

/-- Model of `get_or_create_component` of `post_bulk_data_handler.py`: fails with a
`ConflictError` when the (path_id, name) pair already exists. -/
def get_or_create_component (workspace_id path_id component_name : String) (db : DB) :
    Except Err (String × Bool) × DB :=
  if check_component_name_exists path_id component_name db then
    (.error (.ConflictError
      ("Component named " ++ component_name ++ " already exists in this path")), db)
  else
    let (component_id, db1) := generate_id "comp" db
    (.ok (component_id, true),
      { db1 with components := db1.components ++
          [{ id := component_id, workspace_id := workspace_id, path_id := path_id,
             name := component_name, has_data := true, has_action := false }] })

/-- Model of `create_data_entries` of `post_bulk_data_handler.py`: one data row per
event, carrying the denormalized `workspace_id`. -/
def create_data_entries (component_id workspace_id : String)
    (data_events : List DataEvent) (add_to_data_lake : Bool) (db : DB) :
    List String × DB :=
  match data_events with
  | [] => ([], db)
  | event :: rest =>
    let (data_id, db1) := generate_id "data" db
    let db2 := { db1 with dataRows := db1.dataRows ++
        [{ id := data_id, component_id := component_id, workspace_id := some workspace_id,
           data := event.data, data_map := event.dataMap, s3_location := none,
           addToDataLake := add_to_data_lake }] }
    let (ids, db3) := create_data_entries component_id workspace_id rest add_to_data_lake db2
    (data_id :: ids, db3)

/-- The `handler` of `post_bulk_data_handler.py` on a validated input. -/
def handler (input : BulkInput) (db : DB) : Except Err BulkResult × DB :=
  match get_admin_user input.admin_email db with
  | .error e => (.error e, db)
  | .ok user_id =>
    match get_or_create_workspace user_id input.workspace_name db with
    | (.error e, db1) => (.error e, db1)
    | (.ok (workspace_id, workspace_created), db1) =>
      match get_or_create_path workspace_id input.path_name db1 with
      | (.error e, db2) => (.error e, db2)
      | (.ok (path_id, path_created), db2) =>
        match get_or_create_component workspace_id path_id input.component_name db2 with
        | (.error e, db3) => (.error e, db3)
        | (.ok (component_id, component_created), db3) =>
          let (created_data_ids, db4) :=
            create_data_entries component_id workspace_id input.data input.addToDataLake db3
          (.ok { workspace_id := workspace_id, path_id := path_id,
                 component_id := component_id, created_data_ids := created_data_ids,
                 workspace_created := workspace_created, path_created := path_created,
                 component_created := component_created }, db4)

end post_bulk_data_handler

namespace cascade_delete

/-- Model of `query_items` of `cascade_handlers/utils.py` specialized to the sparse
`WorkspaceDataIndex`: the pagination loop is followed to exhaustion, so the
net result is every index entry for the key.  A data row without the
`workspace_id` attribute has no entry in this sparse index. -/
def query_data_by_workspace (workspace_id : String) (db : DB) : List DataRow :=
  db.dataRows.filter (fun d => d.workspace_id == some workspace_id)

/-- Model of `query_items` against the `ComponentDataIndex` (all pages). -/
def query_data_by_component (component_id : String) (db : DB) : List DataRow :=
  db.dataRows.filter (fun d => d.component_id == component_id)

/-- Model of `query_items` against the `WorkspaceComponentIndex` (all pages). -/
def query_components_by_workspace (workspace_id : String) (db : DB) : List ComponentRow :=
  db.components.filter (fun c => c.workspace_id == workspace_id)

/-- Model of `query_items` against the `PathComponentIndex` (all pages). -/
def query_components_by_path (path_id : String) (db : DB) : List ComponentRow :=
  db.components.filter (fun c => c.path_id == path_id)

/-- Model of `query_items` against the `WorkspacePathIndex` (all pages). -/
def query_paths_by_workspace (workspace_id : String) (db : DB) : List PathRow :=
  db.paths.filter (fun p => p.workspace_id == workspace_id)

/-- Model of `query_items` against the account index keyed by workspace_id (all pages). -/
def query_accounts_by_workspace (workspace_id : String) (db : DB) : List AccountRow :=
  db.accounts.filter (fun a => a.workspace_id == workspace_id)

/-- Model of `batch_delete` of `cascade_handlers/utils.py`: delete every listed item by
id; the 25-item chunking only splits the requests and does not change the net
effect on the table. -/
def batch_delete (getId : α → String) (items rows : List α) : List α :=
  rows.filter (fun r => !(items.any (fun i => getId i == getId r)))

/-- Model of `delete_workspace_cascade` of `cascade_handlers/cascade_delete.py`: one
flat query+batch-delete per entity kind — data, components, paths, accounts —
using the workspace-scoped indexes.  Note that this Lambda does not delete
the workspace row itself: its removal is the stream event that triggers it. -/
def delete_workspace_cascade (workspace_id : String) (db : DB) : DB :=
  let data_items := query_data_by_workspace workspace_id db
  let db1 := { db with dataRows := batch_delete (fun d => d.id) data_items db.dataRows }
  let components := query_components_by_workspace workspace_id db1
  let db2 := { db1 with components := batch_delete (fun c => c.id) components db1.components }
  let paths := query_paths_by_workspace workspace_id db2
  let db3 := { db2 with paths := batch_delete (fun p => p.id) paths db2.paths }
  let accounts := query_accounts_by_workspace workspace_id db3
  { db3 with accounts := batch_delete (fun a => a.id) accounts db3.accounts }

/-- The per-component data-deletion loop of `delete_path_cascade`. -/
def delete_data_for_components (components : List ComponentRow) (db : DB) : DB :=
  match components with
  | [] => db
  | c :: rest =>
    let data_items := query_data_by_component c.id db
    let db1 := { db with dataRows := batch_delete (fun d => d.id) data_items db.dataRows }
    delete_data_for_components rest db1

/-- Model of `delete_path_cascade` of `cascade_handlers/cascade_delete.py`: delete the
data of every component under the path, then batch-delete the components.
The path row itself is the stream trigger and is not deleted here. -/
def delete_path_cascade (path_id : String) (db : DB) : DB :=
  let components := query_components_by_path path_id db
  let db1 := delete_data_for_components components db
  { db1 with components := batch_delete (fun c => c.id) components db1.components }

/-- Model of `delete_component_cascade` of `cascade_handlers/cascade_delete.py`: query
the data rows of the component (all pages) and batch-delete them.  It touches
no other table and never calls the blob store. -/
def delete_component_cascade (component_id : String) (db : DB) : DB :=
  let data_items := query_data_by_component component_id db
  { db with dataRows := batch_delete (fun d => d.id) data_items db.dataRows }

end cascade_delete

/- The scan-based recursive cascade body shared verbatim by
`WorkspaceDeleter.delete_workspace_cascade` (`scripts/admin/delete_workspace_cascade.py`)
and `UserAccountDeleter.delete_workspace_cascade` (`scripts/admin/delete_user_accounts.py`):
scan paths by workspace_id; per path scan components by path_id; per component
scan data by component_id, best-effort delete the blob mirrors, delete the
data rows, delete the component; delete the path; then delete every account
of the workspace and finally the workspace row. -/
namespace ScanCascade

/-- The per-component body: scan data entries, delete their blobs (when
enabled), delete the data rows, delete the component row. -/
def process_component (delete_s3 : Bool) (component : ComponentRow) (db : DB) : DB :=
  let data_entries := db.dataRows.filter (fun d => d.component_id == component.id)
  let db1 := { db with
    blobs := delete_s3_objects delete_s3 data_entries db.blobs,
    dataRows := delete_each (fun d => d.id) data_entries db.dataRows }
  { db1 with components := db1.components.filter (fun c => !(c.id == component.id)) }

/-- The loop over one path's scanned components. -/
def process_components (delete_s3 : Bool) (components : List ComponentRow) (db : DB) : DB :=
  match components with
  | [] => db
  | c :: rest => process_components delete_s3 rest (process_component delete_s3 c db)

/-- The per-path body: scan the path's components, process each, then delete
the path row. -/
def process_path (delete_s3 : Bool) (path : PathRow) (db : DB) : DB :=
  let components := db.components.filter (fun c => c.path_id == path.id)
  let db1 := process_components delete_s3 components db
  { db1 with paths := db1.paths.filter (fun p => !(p.id == path.id)) }

/-- The loop over the workspace's scanned paths. -/
def process_paths (delete_s3 : Bool) (paths : List PathRow) (db : DB) : DB :=
  match paths with
  | [] => db
  | p :: rest => process_paths delete_s3 rest (process_path delete_s3 p db)

/-- The whole scan-based cascade for one workspace id. -/
def run (delete_s3 : Bool) (workspace_id : String) (db : DB) : DB :=
  let paths := db.paths.filter (fun p => p.workspace_id == workspace_id)
  let db1 := process_paths delete_s3 paths db
  let accounts := db1.accounts.filter (fun a => a.workspace_id == workspace_id)
  let db2 := { db1 with accounts := delete_each (fun a => a.id) accounts db1.accounts }
  { db2 with workspaces := db2.workspaces.filter (fun w => !(w.id == workspace_id)) }

end ScanCascade

namespace WorkspaceDeleter

/-- Model of `get_workspace` of `scripts/admin/delete_workspace_cascade.py`: a point
get by table key. -/
def get_workspace (workspace_id : String) (db : DB) : Option WorkspaceRow :=
  db.workspaces.find? (fun w => w.id == workspace_id)

/-- Model of `WorkspaceDeleter.delete_workspace_cascade`: verify the workspace exists
(returning failure when it does not), honour the dry-run flag, and otherwise
run the scan-based cascade.  The returned Bool is the script's success flag. -/
def delete_workspace_cascade (delete_s3 : Bool) (workspace_id : String)
    (dry_run : Bool) (db : DB) : Bool × DB :=
  match get_workspace workspace_id db with
  | none => (false, db)
  | some _ =>
    if dry_run then (true, db)
    else (true, ScanCascade.run delete_s3 workspace_id db)

end WorkspaceDeleter

/-- Shared by the admin scripts: scan the user table by email and return the
first match, if any. -/
def get_user_by_email (email : String) (db : DB) : Option UserRow :=
  (db.users.filter (fun u => u.email == email)).head?

namespace ResourceDeleter

/-- Model of `delete_cognito_user` of `scripts/admin/delete_user_cascade.py`.  The
external identity store is opaque; the outcome of the deletion attempt (True:
deleted or already absent; False: no user pool found, or the delete call
failed) is a parameter of the embedding. -/
def delete_cognito_user (identity_delete_ok : Bool) : Bool := identity_delete_ok

/-- The index-based per-workspace deletion inside `delete_cascade`: flat
queries by workspace_id for data (with best-effort blob deletion), components
and paths, then the workspace row. -/
def cascade_admin_workspace (delete_s3 : Bool) (workspace_id : String) (db : DB) : DB :=
  let data_entries := db.dataRows.filter (fun d => d.workspace_id == some workspace_id)
  let db1 := { db with
    blobs := delete_s3_objects delete_s3 data_entries db.blobs,
    dataRows := delete_each (fun d => d.id) data_entries db.dataRows }
  let components := db1.components.filter (fun c => c.workspace_id == workspace_id)
  let db2 := { db1 with components := delete_each (fun c => c.id) components db1.components }
  let paths := db2.paths.filter (fun p => p.workspace_id == workspace_id)
  let db3 := { db2 with paths := delete_each (fun p => p.id) paths db2.paths }
  { db3 with workspaces := db3.workspaces.filter (fun w => !(w.id == workspace_id)) }

/-- The loop over the admin workspaces of the user being deleted. -/
def cascade_admin_workspaces (delete_s3 : Bool) (workspace_ids : List String) (db : DB) : DB :=
  match workspace_ids with
  | [] => db
  | w :: rest => cascade_admin_workspaces delete_s3 rest (cascade_admin_workspace delete_s3 w db)

/-- Model of `ResourceDeleter.delete_cascade` of `scripts/admin/delete_user_cascade.py`:
resolve the user (failure if absent); delete the external identity record and
ABORT before any store mutation if that fails; cascade-delete every workspace
where the user is admin; delete all the user's account rows; delete the user
row.  The Python iterates the admin workspaces as a set; the embedding keeps
the first-appearance order, which no claim depends on. -/
def delete_cascade (delete_s3 : Bool) (email : String) (identity_delete_ok : Bool)
    (db : DB) : Bool × DB :=
  match get_user_by_email email db with
  | none => (false, db)
  | some user =>
    if !(delete_cognito_user identity_delete_ok) then (false, db)
    else
      let accounts := db.accounts.filter (fun a => a.user_id == user.id)
      let admin_workspaces :=
        ((accounts.filter (fun a => a.user_is_workspace_admin)).map
          (fun a => a.workspace_id)).eraseDups
      let db1 := cascade_admin_workspaces delete_s3 admin_workspaces db
      let db2 := { db1 with accounts := delete_each (fun a => a.id) accounts db1.accounts }
      (true, { db2 with users := db2.users.filter (fun u => !(u.id == user.id)) })

end ResourceDeleter

namespace UserAccountDeleter

/-- Model of `get_specific_accounts` of `scripts/admin/delete_user_accounts.py`: for
each requested workspace id, scan for the (user, workspace) account and keep
the first match when one exists. -/
def get_specific_accounts (user_id : String) (workspace_ids : List String) (db : DB) :
    List AccountRow :=
  workspace_ids.filterMap (fun ws_id =>
    (db.accounts.filter (fun a => a.user_id == user_id && a.workspace_id == ws_id)).head?)

/-- Model of `UserAccountDeleter.delete_workspace_cascade`: the scan-based cascade
with no existence pre-check; always reports success. -/
def delete_workspace_cascade (delete_s3 : Bool) (workspace_id : String) (db : DB) :
    Bool × DB :=
  (true, ScanCascade.run delete_s3 workspace_id db)

/-- The loop cascading every workspace on which the user holds an admin
account. -/
def cascade_admin_accounts (delete_s3 : Bool) (accounts : List AccountRow) (db : DB) : DB :=
  match accounts with
  | [] => db
  | account :: rest =>
    cascade_admin_accounts delete_s3 rest
      (delete_workspace_cascade delete_s3 account.workspace_id db).2

/-- Model of `UserAccountDeleter.delete_specific_accounts`: resolve the user (failure
if absent); collect the (user, workspace) accounts for the requested ids
(success and no-op when none match); split them into admin and regular
accounts; in execute mode cascade-delete every admin workspace and then
delete each regular account row. -/
def delete_specific_accounts (delete_s3 : Bool) (email : String)
    (workspace_ids : List String) (dry_run : Bool) (db : DB) : Bool × DB :=
  match get_user_by_email email db with
  | none => (false, db)
  | some user =>
    let accounts := get_specific_accounts user.id workspace_ids db
    if accounts.isEmpty then (true, db)
    else
      let admin_workspaces := accounts.filter (fun a => a.user_is_workspace_admin)
      let regular_accounts := accounts.filter (fun a => !a.user_is_workspace_admin)
      if dry_run then (true, db)
      else
        let db1 := cascade_admin_accounts delete_s3 admin_workspaces db
        (true, { db1 with
          accounts := delete_each (fun a => a.id) regular_accounts db1.accounts })

end UserAccountDeleter

namespace OrphanWorkspaceCleaner

/-- The workspace lookup map of `cleanup_orphaned_components`
(`scripts/admin/cleanup_orphan_workspaces.py`): a dict built by scanning the
table, a later row with the same id overwriting an earlier one. -/
def lookup_workspace (db : DB) (i : String) : Option WorkspaceRow :=
  db.workspaces.foldl (fun acc w => if w.id == i then some w else acc) none

/-- The path lookup map of `cleanup_orphaned_components`. -/
def lookup_path (db : DB) (i : String) : Option PathRow :=
  db.paths.foldl (fun acc p => if p.id == i then some p else acc) none

/-- The orphan test of `cleanup_orphaned_components`: a component is flagged
when its workspace_id is unknown, or its path_id is unknown, or (both parents
known) the referenced path's workspace_id disagrees with the component's. -/
def component_is_orphaned (db : DB) (component : ComponentRow) : Bool :=
  match lookup_path db component.path_id with
  | none => true
  | some p =>
    if (lookup_workspace db component.workspace_id).isNone then true
    else !(p.workspace_id == component.workspace_id)

/-- The detection pass: every component flagged by the orphan test, in table
order (the spec's `find_orphaned_components`). -/
def orphaned_components (db : DB) : List ComponentRow :=
  db.components.filter (fun c => component_is_orphaned db c)

/-- The repair of one orphaned component: query its data rows via the
`ComponentDataIndex`, best-effort delete their blob mirrors, delete the data
rows, then delete the component row. -/
def repair_component (component : ComponentRow) (db : DB) : DB :=
  let data_entries := db.dataRows.filter (fun d => d.component_id == component.id)
  let db1 := { db with
    blobs := remove_blob_locations data_entries db.blobs,
    dataRows := delete_each (fun d => d.id) data_entries db.dataRows }
  { db1 with components := db1.components.filter (fun c => !(c.id == component.id)) }

/-- The repair loop over the detected orphans. -/
def repair_components (orphans : List ComponentRow) (db : DB) : DB :=
  match orphans with
  | [] => db
  | c :: rest => repair_components rest (repair_component c db)

/-- Model of `cleanup_orphaned_components`: detect the orphans against the current
lookup maps, then repair (delete) each of them and their data. -/
def cleanup_orphaned_components (db : DB) : DB :=
  repair_components (orphaned_components db) db

end OrphanWorkspaceCleaner

/-! ## A small kit of lemmas about sequential by-id deletion and scans -/

/-- Boolean membership of a string in a list of strings (used to phrase the
cascade characterizations). -/
def memS (W : List String) (x : String) : Bool := W.any (fun w => x == w)

theorem delete_each_eq_filter (getId : α → String) (items rows : List α) :
    delete_each getId items rows
      = rows.filter (fun r => !(items.any (fun i => getId r == getId i))) := by
  induction items generalizing rows with
  | nil => simp [delete_each]
  | cons i is ih =>
    show delete_each getId is (rows.filter fun r => !(getId r == getId i)) = _
    rw [ih, List.filter_filter]
    refine List.filter_congr ?_
    intro a _
    simp only [List.any_cons, Bool.not_or, Bool.and_comm]

theorem any_id_filter_eq (getId : α → String) {rows : List α}
    (hnd : (rows.map getId).Nodup) {r : α} (hr : r ∈ rows) (p : α → Bool) :
    ((rows.filter p).any (fun i => getId r == getId i)) = p r := by
  rw [List.any_filter]
  cases hp : p r with
  | true =>
    refine List.any_eq_true.mpr ⟨r, hr, ?_⟩
    simp [hp]
  | false =>
    refine List.any_eq_false.mpr ?_
    intro a ha hcontra
    have h1 : p a = true := by
      have := Bool.and_eq_true (p a) (getId r == getId a) ▸ hcontra
      exact this.1
    have h2 : getId r = getId a := by
      have := Bool.and_eq_true (p a) (getId r == getId a) ▸ hcontra
      exact beq_iff_eq.mp this.2
    have hra : r = a := List.inj_on_of_nodup_map hnd hr ha h2
    rw [← hra, hp] at h1
    exact Bool.false_ne_true h1

theorem beq_comm_str (a b : String) : (a == b) = (b == a) := by
  rcases instDecidableEqString a b with h | h
  · have hba : ¬b = a := fun hh => h hh.symm
    rw [beq_eq_false_iff_ne.mpr h, beq_eq_false_iff_ne.mpr hba]
  · rw [h]

theorem any_id_filter_eq_symm (getId : α → String) {rows : List α}
    (hnd : (rows.map getId).Nodup) {r : α} (hr : r ∈ rows) (p : α → Bool) :
    ((rows.filter p).any (fun i => getId i == getId r)) = p r := by
  rw [← any_id_filter_eq getId hnd hr p]
  refine congrArg (List.any _) ?_
  funext i
  exact beq_comm_str (getId i) (getId r)

theorem delete_scanned_eq_filter (getId : α → String) (p : α → Bool) {rows : List α}
    (hnd : (rows.map getId).Nodup) :
    rows.filter (fun r => !((rows.filter p).any (fun i => getId r == getId i)))
      = rows.filter (fun r => !(p r)) := by
  refine List.filter_congr ?_
  intro r hr
  rw [any_id_filter_eq getId hnd hr p]

theorem delete_each_scanned (getId : α → String) (p : α → Bool) {rows : List α}
    (hnd : (rows.map getId).Nodup) :
    delete_each getId (rows.filter p) rows = rows.filter (fun r => !(p r)) := by
  rw [delete_each_eq_filter, delete_scanned_eq_filter getId p hnd]

theorem batch_delete_scanned (getId : α → String) (p : α → Bool) {rows : List α}
    (hnd : (rows.map getId).Nodup) :
    cascade_delete.batch_delete getId (rows.filter p) rows
      = rows.filter (fun r => !(p r)) := by
  refine List.filter_congr ?_
  intro r hr
  rw [any_id_filter_eq_symm getId hnd hr p]

theorem batch_delete_nil (getId : α → String) (rows : List α) :
    cascade_delete.batch_delete getId [] rows = rows := by
  simp [cascade_delete.batch_delete]

theorem filter_batch_delete_self (getId : α → String) (p : α → Bool) (rows : List α) :
    (cascade_delete.batch_delete getId (rows.filter p) rows).filter p = [] := by
  rw [cascade_delete.batch_delete, List.filter_filter]
  refine List.filter_eq_nil_iff.mpr ?_
  intro a ha h
  have h1 := (Bool.and_eq_true _ _ ▸ h).1
  have h2 := (Bool.and_eq_true _ _ ▸ h).2
  have hmem : a ∈ rows.filter p := List.mem_filter.mpr ⟨ha, h1⟩
  have : (rows.filter p).any (fun i => getId i == getId a) = true :=
    List.any_eq_true.mpr ⟨a, hmem, beq_iff_eq.mpr rfl⟩
  rw [this] at h2
  simp at h2

theorem filter_delete_each_self (getId : α → String) (p : α → Bool) (rows : List α) :
    (delete_each getId (rows.filter p) rows).filter p = [] := by
  rw [delete_each_eq_filter, List.filter_filter]
  refine List.filter_eq_nil_iff.mpr ?_
  intro a ha h
  have h1 := (Bool.and_eq_true _ _ ▸ h).1
  have h2 := (Bool.and_eq_true _ _ ▸ h).2
  have hmem : a ∈ rows.filter p := List.mem_filter.mpr ⟨ha, h1⟩
  have : (rows.filter p).any (fun i => getId a == getId i) = true :=
    List.any_eq_true.mpr ⟨a, hmem, beq_iff_eq.mpr rfl⟩
  rw [this] at h2
  simp at h2

theorem find?_filter_not (q : α → Bool) (l : List α) :
    (l.filter (fun x => !(q x))).find? q = none := by
  refine List.find?_eq_none.mpr ?_
  intro x hx
  have := (List.mem_filter.mp hx).2
  intro hq
  rw [hq] at this
  simp at this

/-- Nodup of mapped ids survives filtering the rows. -/
theorem nodup_map_filter (getId : α → String) (p : α → Bool) {rows : List α}
    (hnd : (rows.map getId).Nodup) : ((rows.filter p).map getId).Nodup :=
  List.Nodup.sublist (List.Sublist.map getId (List.filter_sublist rows)) hnd

/-- Splitting a disjunctive guard under `List.any`. -/
theorem any_or_decomp (l : List α) (A B C : α → Bool) :
    (l.any (fun x => (A x || B x) && C x))
      = ((l.any (fun x => A x && C x)) || (l.any (fun x => !(A x) && (B x && C x)))) := by
  rw [Bool.eq_iff_iff]
  simp only [List.any_eq_true, Bool.and_eq_true, Bool.or_eq_true, Bool.not_eq_true']
  constructor
  · rintro ⟨x, hx, hab, hc⟩
    rcases hab with ha | hb
    · exact Or.inl ⟨x, hx, ha, hc⟩
    · rcases Bool.eq_false_or_eq_true (A x) with hA | hA
      · exact Or.inl ⟨x, hx, hA, hc⟩
      · exact Or.inr ⟨x, hx, hA, hb, hc⟩
  · rintro (⟨x, hx, ha, hc⟩ | ⟨x, hx, _, hb, hc⟩)
    · exact ⟨x, hx, Or.inl ha, hc⟩
    · exact ⟨x, hx, Or.inr hb, hc⟩

/-! ## Characterization of the scan-based cascade of the admin scripts -/

theorem SC_process_component_spec (ds : Bool) (c : ComponentRow) (db : DB)
    (hd : (db.dataRows.map (fun d => d.id)).Nodup) :
    (ScanCascade.process_component ds c db).dataRows
        = db.dataRows.filter (fun d => !(d.component_id == c.id))
    ∧ (ScanCascade.process_component ds c db).components
        = db.components.filter (fun x => !(x.id == c.id))
    ∧ (ScanCascade.process_component ds c db).paths = db.paths
    ∧ (ScanCascade.process_component ds c db).accounts = db.accounts
    ∧ (ScanCascade.process_component ds c db).workspaces = db.workspaces
    ∧ (ScanCascade.process_component ds c db).users = db.users
    ∧ (ScanCascade.process_component ds c db).nextId = db.nextId := by
  refine ⟨?_, rfl, rfl, rfl, rfl, rfl, rfl⟩
  show delete_each (fun d => d.id)
      (db.dataRows.filter (fun d => d.component_id == c.id)) db.dataRows = _
  exact delete_each_scanned _ _ hd

theorem SC_process_components_spec (ds : Bool) (cs : List ComponentRow) (db : DB)
    (hd : (db.dataRows.map (fun d => d.id)).Nodup) :
    (ScanCascade.process_components ds cs db).dataRows
        = db.dataRows.filter (fun d => !(cs.any (fun c => d.component_id == c.id)))
    ∧ (ScanCascade.process_components ds cs db).components
        = db.components.filter (fun x => !(cs.any (fun c => x.id == c.id)))
    ∧ (ScanCascade.process_components ds cs db).paths = db.paths
    ∧ (ScanCascade.process_components ds cs db).accounts = db.accounts
    ∧ (ScanCascade.process_components ds cs db).workspaces = db.workspaces
    ∧ (ScanCascade.process_components ds cs db).users = db.users
    ∧ (ScanCascade.process_components ds cs db).nextId = db.nextId := by
  induction cs generalizing db with
  | nil => simp [ScanCascade.process_components]
  | cons c rest ih =>
    have hstep := SC_process_component_spec ds c db hd
    obtain ⟨e1, e2, e3, e4, e5, e6, e7⟩ := hstep
    have hd1 : ((ScanCascade.process_component ds c db).dataRows.map (fun d => d.id)).Nodup := by
      rw [e1]; exact nodup_map_filter _ _ hd
    have hrec := ih (ScanCascade.process_component ds c db) hd1
    obtain ⟨f1, f2, f3, f4, f5, f6, f7⟩ := hrec
    have hcons : ScanCascade.process_components ds (c :: rest) db
        = ScanCascade.process_components ds rest (ScanCascade.process_component ds c db) := rfl
    rw [hcons]
    refine ⟨?_, ?_, by rw [f3, e3], by rw [f4, e4], by rw [f5, e5], by rw [f6, e6],
      by rw [f7, e7]⟩
    · rw [f1, e1, List.filter_filter]
      refine List.filter_congr ?_
      intro d _
      simp only [List.any_cons, Bool.not_or, Bool.and_comm]
    · rw [f2, e2, List.filter_filter]
      refine List.filter_congr ?_
      intro x _
      simp only [List.any_cons, Bool.not_or, Bool.and_comm]

theorem SC_process_path_spec (ds : Bool) (p : PathRow) (db : DB)
    (hd : (db.dataRows.map (fun d => d.id)).Nodup)
    (hc : (db.components.map (fun c => c.id)).Nodup) :
    (ScanCascade.process_path ds p db).dataRows
        = db.dataRows.filter (fun d =>
            !(db.components.any (fun c => (c.path_id == p.id) && d.component_id == c.id)))
    ∧ (ScanCascade.process_path ds p db).components
        = db.components.filter (fun c => !(c.path_id == p.id))
    ∧ (ScanCascade.process_path ds p db).paths
        = db.paths.filter (fun q => !(q.id == p.id))
    ∧ (ScanCascade.process_path ds p db).accounts = db.accounts
    ∧ (ScanCascade.process_path ds p db).workspaces = db.workspaces
    ∧ (ScanCascade.process_path ds p db).users = db.users
    ∧ (ScanCascade.process_path ds p db).nextId = db.nextId := by
  have hmain := SC_process_components_spec ds
    (db.components.filter (fun c => c.path_id == p.id)) db hd
  obtain ⟨f1, f2, f3, f4, f5, f6, f7⟩ := hmain
  refine ⟨?_, ?_, ?_, f4, f5, f6, f7⟩
  · show (ScanCascade.process_components ds
      (db.components.filter (fun c => c.path_id == p.id)) db).dataRows = _
    rw [f1]
    refine List.filter_congr ?_
    intro d _
    rw [List.any_filter]
  · show (ScanCascade.process_components ds
      (db.components.filter (fun c => c.path_id == p.id)) db).components = _
    rw [f2]
    exact delete_scanned_eq_filter (fun c : ComponentRow => c.id) _ hc
  · show (ScanCascade.process_components ds
      (db.components.filter (fun c => c.path_id == p.id)) db).paths.filter
        (fun q => !(q.id == p.id)) = _
    rw [f3]

theorem any_false (l : List α) : (l.any fun _ => false) = false := by
  induction l with
  | nil => rfl
  | cons a l ih => simp [ih]

theorem SC_process_paths_spec (ds : Bool) (ps : List PathRow) (db : DB)
    (hd : (db.dataRows.map (fun d => d.id)).Nodup)
    (hc : (db.components.map (fun c => c.id)).Nodup) :
    (ScanCascade.process_paths ds ps db).dataRows
        = db.dataRows.filter (fun d =>
            !(db.components.any (fun c =>
              ps.any (fun q => c.path_id == q.id) && d.component_id == c.id)))
    ∧ (ScanCascade.process_paths ds ps db).components
        = db.components.filter (fun c => !(ps.any (fun q => c.path_id == q.id)))
    ∧ (ScanCascade.process_paths ds ps db).paths
        = db.paths.filter (fun q => !(ps.any (fun r => q.id == r.id)))
    ∧ (ScanCascade.process_paths ds ps db).accounts = db.accounts
    ∧ (ScanCascade.process_paths ds ps db).workspaces = db.workspaces
    ∧ (ScanCascade.process_paths ds ps db).users = db.users
    ∧ (ScanCascade.process_paths ds ps db).nextId = db.nextId := by
  induction ps generalizing db with
  | nil => simp [ScanCascade.process_paths, any_false]
  | cons p rest ih =>
    obtain ⟨e1, e2, e3, e4, e5, e6, e7⟩ := SC_process_path_spec ds p db hd hc
    have hd1 : ((ScanCascade.process_path ds p db).dataRows.map (fun d => d.id)).Nodup := by
      rw [e1]; exact nodup_map_filter _ _ hd
    have hc1 : ((ScanCascade.process_path ds p db).components.map (fun c => c.id)).Nodup := by
      rw [e2]; exact nodup_map_filter _ _ hc
    obtain ⟨f1, f2, f3, f4, f5, f6, f7⟩ := ih (ScanCascade.process_path ds p db) hd1 hc1
    have hcons : ScanCascade.process_paths ds (p :: rest) db
        = ScanCascade.process_paths ds rest (ScanCascade.process_path ds p db) := rfl
    rw [hcons]
    refine ⟨?_, ?_, ?_, by rw [f4, e4], by rw [f5, e5], by rw [f6, e6], by rw [f7, e7]⟩
    · rw [f1, e1, e2]
      simp only [List.any_filter]
      rw [List.filter_filter]
      refine List.filter_congr ?_
      intro d _
      simp only [List.any_cons]
      rw [any_or_decomp db.components (fun c => c.path_id == p.id)
          (fun c => rest.any (fun q => c.path_id == q.id))
          (fun c => d.component_id == c.id), Bool.not_or]
      exact Bool.and_comm _ _
    · rw [f2, e2, List.filter_filter]
      refine List.filter_congr ?_
      intro c _
      simp only [List.any_cons, Bool.not_or, Bool.and_comm]
    · rw [f3, e3, List.filter_filter]
      refine List.filter_congr ?_
      intro q _
      simp only [List.any_cons, Bool.not_or, Bool.and_comm]

theorem SC_run_spec (ds : Bool) (w : String) (db : DB)
    (hd : (db.dataRows.map (fun d => d.id)).Nodup)
    (hc : (db.components.map (fun c => c.id)).Nodup)
    (hp : (db.paths.map (fun p => p.id)).Nodup)
    (ha : (db.accounts.map (fun a => a.id)).Nodup) :
    (ScanCascade.run ds w db).dataRows
        = db.dataRows.filter (fun d =>
            !(db.components.any (fun c =>
              db.paths.any (fun q => (q.workspace_id == w) && c.path_id == q.id)
                && d.component_id == c.id)))
    ∧ (ScanCascade.run ds w db).components
        = db.components.filter (fun c =>
            !(db.paths.any (fun q => (q.workspace_id == w) && c.path_id == q.id)))
    ∧ (ScanCascade.run ds w db).paths
        = db.paths.filter (fun q => !(q.workspace_id == w))
    ∧ (ScanCascade.run ds w db).accounts
        = db.accounts.filter (fun a => !(a.workspace_id == w))
    ∧ (ScanCascade.run ds w db).workspaces
        = db.workspaces.filter (fun x => !(x.id == w))
    ∧ (ScanCascade.run ds w db).users = db.users
    ∧ (ScanCascade.run ds w db).nextId = db.nextId := by
  obtain ⟨f1, f2, f3, f4, f5, f6, f7⟩ :=
    SC_process_paths_spec ds (db.paths.filter (fun p => p.workspace_id == w)) db hd hc
  refine ⟨?_, ?_, ?_, ?_, ?_, ?_, ?_⟩
  · show (ScanCascade.process_paths ds
      (db.paths.filter (fun p => p.workspace_id == w)) db).dataRows = _
    rw [f1]
    simp only [List.any_filter]
  · show (ScanCascade.process_paths ds
      (db.paths.filter (fun p => p.workspace_id == w)) db).components = _
    rw [f2]
    simp only [List.any_filter]
  · show (ScanCascade.process_paths ds
      (db.paths.filter (fun p => p.workspace_id == w)) db).paths = _
    rw [f3]
    exact delete_scanned_eq_filter (fun q : PathRow => q.id) _ hp
  · show delete_each (fun a : AccountRow => a.id)
      ((ScanCascade.process_paths ds (db.paths.filter (fun p => p.workspace_id == w))
          db).accounts.filter (fun a => a.workspace_id == w))
      (ScanCascade.process_paths ds (db.paths.filter (fun p => p.workspace_id == w))
          db).accounts = _
    rw [f4]
    exact delete_each_scanned (fun a : AccountRow => a.id) _ ha
  · show ((ScanCascade.process_paths ds (db.paths.filter (fun p => p.workspace_id == w))
        db).workspaces.filter (fun x => !(x.id == w))) = _
    rw [f5]
  · exact f6
  · exact f7

theorem memS_cons (w : String) (W : List String) (x : String) :
    memS (w :: W) x = ((x == w) || memS W x) := by
  simp [memS, List.any_cons]

theorem memS_nil (x : String) : memS [] x = false := rfl

theorem UAD_cascade_admin_accounts_spec (ds : Bool) (accs : List AccountRow) (db : DB)
    (hd : (db.dataRows.map (fun d => d.id)).Nodup)
    (hc : (db.components.map (fun c => c.id)).Nodup)
    (hp : (db.paths.map (fun p => p.id)).Nodup)
    (ha : (db.accounts.map (fun a => a.id)).Nodup) :
    (UserAccountDeleter.cascade_admin_accounts ds accs db).dataRows
        = db.dataRows.filter (fun d =>
            !(db.components.any (fun c =>
              db.paths.any (fun q =>
                memS (accs.map (fun a => a.workspace_id)) q.workspace_id
                  && c.path_id == q.id) && d.component_id == c.id)))
    ∧ (UserAccountDeleter.cascade_admin_accounts ds accs db).components
        = db.components.filter (fun c =>
            !(db.paths.any (fun q =>
              memS (accs.map (fun a => a.workspace_id)) q.workspace_id
                && c.path_id == q.id)))
    ∧ (UserAccountDeleter.cascade_admin_accounts ds accs db).paths
        = db.paths.filter (fun q =>
            !(memS (accs.map (fun a => a.workspace_id)) q.workspace_id))
    ∧ (UserAccountDeleter.cascade_admin_accounts ds accs db).accounts
        = db.accounts.filter (fun x =>
            !(memS (accs.map (fun a => a.workspace_id)) x.workspace_id))
    ∧ (UserAccountDeleter.cascade_admin_accounts ds accs db).workspaces
        = db.workspaces.filter (fun x =>
            !(memS (accs.map (fun a => a.workspace_id)) x.id))
    ∧ (UserAccountDeleter.cascade_admin_accounts ds accs db).users = db.users
    ∧ (UserAccountDeleter.cascade_admin_accounts ds accs db).nextId = db.nextId := by
  induction accs generalizing db with
  | nil =>
    simp [UserAccountDeleter.cascade_admin_accounts, memS_nil, any_false]
  | cons acct rest ih =>
    obtain ⟨e1, e2, e3, e4, e5, e6, e7⟩ := SC_run_spec ds acct.workspace_id db hd hc hp ha
    have hd1 : ((ScanCascade.run ds acct.workspace_id db).dataRows.map (fun d => d.id)).Nodup := by
      rw [e1]; exact nodup_map_filter _ _ hd
    have hc1 : ((ScanCascade.run ds acct.workspace_id db).components.map (fun c => c.id)).Nodup := by
      rw [e2]; exact nodup_map_filter _ _ hc
    have hp1 : ((ScanCascade.run ds acct.workspace_id db).paths.map (fun p => p.id)).Nodup := by
      rw [e3]; exact nodup_map_filter _ _ hp
    have ha1 : ((ScanCascade.run ds acct.workspace_id db).accounts.map (fun a => a.id)).Nodup := by
      rw [e4]; exact nodup_map_filter _ _ ha
    obtain ⟨f1, f2, f3, f4, f5, f6, f7⟩ :=
      ih (ScanCascade.run ds acct.workspace_id db) hd1 hc1 hp1 ha1
    have hcons : UserAccountDeleter.cascade_admin_accounts ds (acct :: rest) db
        = UserAccountDeleter.cascade_admin_accounts ds rest
            (ScanCascade.run ds acct.workspace_id db) := rfl
    rw [hcons]
    simp only [List.map_cons]
    refine ⟨?_, ?_, ?_, ?_, ?_, by rw [f6, e6], by rw [f7, e7]⟩
    · rw [f1, e1, e2, e3]
      simp only [List.any_filter]
      rw [List.filter_filter]
      refine List.filter_congr ?_
      intro d _
      simp only [memS_cons, any_or_decomp, Bool.not_or]
      exact Bool.and_comm _ _
    · rw [f2, e2, e3]
      simp only [List.any_filter]
      rw [List.filter_filter]
      refine List.filter_congr ?_
      intro c _
      simp only [memS_cons, any_or_decomp, Bool.not_or]
      exact Bool.and_comm _ _
    · rw [f3, e3, List.filter_filter]
      refine List.filter_congr ?_
      intro q _
      simp only [memS_cons, Bool.not_or, Bool.and_comm]
    · rw [f4, e4, List.filter_filter]
      refine List.filter_congr ?_
      intro x _
      simp only [memS_cons, Bool.not_or, Bool.and_comm]
    · rw [f5, e5, List.filter_filter]
      refine List.filter_congr ?_
      intro x _
      simp only [memS_cons, Bool.not_or, Bool.and_comm]

/-! ## Helper lemmas for the idempotence analysis of the stream cascade -/

theorem component_cascade_noop (cid : String) (db : DB)
    (h : db.dataRows.filter (fun d => d.component_id == cid) = []) :
    cascade_delete.delete_component_cascade cid db = db := by
  show { db with dataRows := (cascade_delete.batch_delete (fun d => d.id)
      (db.dataRows.filter (fun d => d.component_id == cid)) db.dataRows) } = db
  rw [h, batch_delete_nil]

theorem dfc_components (cs : List ComponentRow) (db : DB) :
    (cascade_delete.delete_data_for_components cs db).components = db.components := by
  induction cs generalizing db with
  | nil => rfl
  | cons c rest ih => exact ih _

theorem path_cascade_noop (pid : String) (db : DB)
    (h : db.components.filter (fun c => c.path_id == pid) = []) :
    cascade_delete.delete_path_cascade pid db = db := by
  show { cascade_delete.delete_data_for_components
      (db.components.filter (fun c => c.path_id == pid)) db with
      components := (cascade_delete.batch_delete (fun c => c.id)
        (db.components.filter (fun c => c.path_id == pid))
        (cascade_delete.delete_data_for_components
          (db.components.filter (fun c => c.path_id == pid)) db).components) } = db
  rw [h]
  show { db with components := cascade_delete.batch_delete (fun c => c.id) [] db.components } = db
  rw [batch_delete_nil]

theorem workspace_cascade_noop (wid : String) (db : DB)
    (h1 : db.dataRows.filter (fun d => d.workspace_id == some wid) = [])
    (h2 : db.components.filter (fun c => c.workspace_id == wid) = [])
    (h3 : db.paths.filter (fun p => p.workspace_id == wid) = [])
    (h4 : db.accounts.filter (fun a => a.workspace_id == wid) = []) :
    cascade_delete.delete_workspace_cascade wid db = db := by
  show { db with
      dataRows := (cascade_delete.batch_delete (fun d => d.id)
        (db.dataRows.filter (fun d => d.workspace_id == some wid)) db.dataRows),
      components := (cascade_delete.batch_delete (fun c => c.id)
        (db.components.filter (fun c => c.workspace_id == wid)) db.components),
      paths := (cascade_delete.batch_delete (fun p => p.id)
        (db.paths.filter (fun p => p.workspace_id == wid)) db.paths),
      accounts := (cascade_delete.batch_delete (fun a => a.id)
        (db.accounts.filter (fun a => a.workspace_id == wid)) db.accounts) } = db
  rw [h1, h2, h3, h4, batch_delete_nil, batch_delete_nil, batch_delete_nil, batch_delete_nil]

theorem workspace_deleter_absent (ds : Bool) (wid : String) (dry : Bool) (db : DB)
    (h : WorkspaceDeleter.get_workspace wid db = none) :
    WorkspaceDeleter.delete_workspace_cascade ds wid dry db = (false, db) := by
  unfold WorkspaceDeleter.delete_workspace_cascade
  rw [h]

theorem resource_deleter_absent (ds : Bool) (email : String) (ok : Bool) (db : DB)
    (h : get_user_by_email email db = none) :
    ResourceDeleter.delete_cascade ds email ok db = (false, db) := by
  unfold ResourceDeleter.delete_cascade
  rw [h]

/-! ## Example states used by the per-claim witnesses and counterexamples -/

/-- A small state with one workspace, one path, one component and one data
row whose blob mirror exists. -/
def dbC2 : DB :=
  { users := [], accounts := [],
    workspaces := [{ id := "ws-1", name := "Proj" }],
    paths := [{ id := "path-1", workspace_id := "ws-1", name := "Ingest",
                normalized_name := "ingest" }],
    components := [{ id := "comp-1", workspace_id := "ws-1", path_id := "path-1",
                     name := "Raw", has_data := true, has_action := false }],
    dataRows := [{ id := "data-1", component_id := "comp-1", workspace_id := some "ws-1",
                   data := "payload", data_map := "m",
                   s3_location := some "Proj/Ingest/Raw/data-1.parquet",
                   addToDataLake := true }],
    blobs := ["Proj/Ingest/Raw/data-1.parquet"], nextId := 0 }

/-- C8: during a user cascade delete, a failed external-identity deletion
aborts the whole cascade before any store mutation: the script reports
failure and no Account, Workspace, Path, Component, Data or User row is
deleted (the state is returned untouched). -/
theorem C8_identity_failure_aborts (ds : Bool) (email : String) (db : DB) :
    ResourceDeleter.delete_cascade ds email false db = (false, db) := by
  unfold ResourceDeleter.delete_cascade
  cases get_user_by_email email db with
  | none => rfl
  | some user => rfl

/-- C2 (counterexample): on a state with component `comp-1`, one data row
mirrored at an S3 key, `delete_component_cascade` deletes the data rows but
neither calls the blob store nor deletes the Component row — contradicting
the claim that it deletes each blob mirror and then the Component row. -/
theorem C2_counterexample :
    (cascade_delete.delete_component_cascade "comp-1" dbC2).dataRows = []
    ∧ (cascade_delete.delete_component_cascade "comp-1" dbC2).components = dbC2.components
    ∧ (cascade_delete.delete_component_cascade "comp-1" dbC2).blobs
        = ["Proj/Ingest/Raw/data-1.parquet"] := by
  refine ⟨by decide, by decide, by decide⟩

/-- C2 (amended): for every component_id, `delete_component_cascade` queries
all pages of Data rows by component_id and batch-deletes exactly those rows;
it touches no other table, no blob object, and not the Component row (whose
stream-removal event is what triggers it) — so an unreachable blob location
cannot affect it. -/
theorem C2_component_cascade_deletes_only_its_data (component_id : String) (db : DB)
    (hd : (db.dataRows.map (fun d => d.id)).Nodup) :
    cascade_delete.delete_component_cascade component_id db
      = { db with dataRows :=
            (db.dataRows.filter (fun d => !(d.component_id == component_id))) } := by
  show { db with dataRows := (cascade_delete.batch_delete (fun d => d.id)
      (db.dataRows.filter (fun d => d.component_id == component_id)) db.dataRows) } = _
  rw [batch_delete_scanned _ _ hd]

/-- C2 (witness): the amended theorem evaluated on the concrete state. -/
theorem C2_witness :
    ((dbC2.dataRows.map (fun d => d.id)).Nodup)
    ∧ cascade_delete.delete_component_cascade "comp-1" dbC2
        = { dbC2 with dataRows :=
              (dbC2.dataRows.filter (fun d => !(d.component_id == "comp-1"))) } :=
  ⟨by decide, C2_component_cascade_deletes_only_its_data "comp-1" dbC2 (by decide)⟩

/-- A small state with only one workspace row. -/
def dbC3 : DB :=
  { users := [{ id := "user-1", email := "a@x.com" }],
    accounts := [{ id := "acc-1", user_id := "user-1", workspace_id := "ws-1",
                   user_is_workspace_admin := true }],
    workspaces := [{ id := "ws-1", name := "Proj" }],
    paths := [], components := [], dataRows := [], blobs := [], nextId := 0 }

/-- C3 (counterexample): running the admin script
`WorkspaceDeleter.delete_workspace_cascade` twice on the same id succeeds the
first time but returns failure (False, which the script maps to exit 1) the
second time, because the workspace row no longer exists — contradicting the
claim that every cascade-delete entry point yields success on both calls. -/
theorem C3_counterexample :
    (WorkspaceDeleter.delete_workspace_cascade true "ws-1" false dbC3).1 = true
    ∧ (WorkspaceDeleter.delete_workspace_cascade true "ws-1" false
        (WorkspaceDeleter.delete_workspace_cascade true "ws-1" false dbC3).2).1 = false := by
  refine ⟨by decide, by decide⟩

/-- C3 (amended): the stream cascade handlers (component, path, workspace)
are idempotent — a second call deletes nothing further and cannot fail — while
the admin-script entry points (workspace script, user script) also delete
nothing and raise no error on a re-run over an already-deleted root, but they
report failure (return False) instead of success. -/
theorem C3_cascade_idempotence :
    (∀ (cid : String) (db : DB),
      cascade_delete.delete_component_cascade cid
          (cascade_delete.delete_component_cascade cid db)
        = cascade_delete.delete_component_cascade cid db)
    ∧ (∀ (pid : String) (db : DB),
      cascade_delete.delete_path_cascade pid (cascade_delete.delete_path_cascade pid db)
        = cascade_delete.delete_path_cascade pid db)
    ∧ (∀ (wid : String) (db : DB),
      cascade_delete.delete_workspace_cascade wid
          (cascade_delete.delete_workspace_cascade wid db)
        = cascade_delete.delete_workspace_cascade wid db)
    ∧ (∀ (ds : Bool) (wid : String) (dry : Bool) (db : DB),
      WorkspaceDeleter.get_workspace wid db = none →
      WorkspaceDeleter.delete_workspace_cascade ds wid dry db = (false, db))
    ∧ (∀ (ds : Bool) (email : String) (ok : Bool) (db : DB),
      get_user_by_email email db = none →
      ResourceDeleter.delete_cascade ds email ok db = (false, db)) := by
  refine ⟨?_, ?_, ?_, workspace_deleter_absent, resource_deleter_absent⟩
  · intro cid db
    refine component_cascade_noop cid _ ?_
    show (cascade_delete.batch_delete (fun d => d.id)
        (db.dataRows.filter (fun d => d.component_id == cid)) db.dataRows).filter
        (fun d => d.component_id == cid) = []
    exact filter_batch_delete_self _ _ _
  · intro pid db
    refine path_cascade_noop pid _ ?_
    have hcomp : (cascade_delete.delete_path_cascade pid db).components
        = cascade_delete.batch_delete (fun c => c.id)
            (db.components.filter (fun c => c.path_id == pid))
            (cascade_delete.delete_data_for_components
              (db.components.filter (fun c => c.path_id == pid)) db).components := rfl
    rw [hcomp, dfc_components]
    exact filter_batch_delete_self _ _ _
  · intro wid db
    refine workspace_cascade_noop wid _ ?_ ?_ ?_ ?_
    · show (cascade_delete.batch_delete (fun d => d.id)
          (db.dataRows.filter (fun d => d.workspace_id == some wid)) db.dataRows).filter
          (fun d => d.workspace_id == some wid) = []
      exact filter_batch_delete_self _ _ _
    · show (cascade_delete.batch_delete (fun c => c.id)
          (db.components.filter (fun c => c.workspace_id == wid)) db.components).filter
          (fun c => c.workspace_id == wid) = []
      exact filter_batch_delete_self _ _ _
    · show (cascade_delete.batch_delete (fun p => p.id)
          (db.paths.filter (fun p => p.workspace_id == wid)) db.paths).filter
          (fun p => p.workspace_id == wid) = []
      exact filter_batch_delete_self _ _ _
    · show (cascade_delete.batch_delete (fun a => a.id)
          (db.accounts.filter (fun a => a.workspace_id == wid)) db.accounts).filter
          (fun a => a.workspace_id == wid) = []
      exact filter_batch_delete_self _ _ _

/-- C3 (witness): the amended theorem instantiated on concrete states,
discharging the absent-root hypotheses on a state with no workspace `ws-9`
and no user `z@x.com`. -/
theorem C3_witness :
    (cascade_delete.delete_workspace_cascade "ws-1"
        (cascade_delete.delete_workspace_cascade "ws-1" dbC3)
      = cascade_delete.delete_workspace_cascade "ws-1" dbC3)
    ∧ WorkspaceDeleter.delete_workspace_cascade true "ws-9" false dbC3 = (false, dbC3)
    ∧ ResourceDeleter.delete_cascade true "z@x.com" true dbC3 = (false, dbC3) :=
  ⟨C3_cascade_idempotence.2.2.1 "ws-1" dbC3,
   C3_cascade_idempotence.2.2.2.1 true "ws-9" false dbC3 (by decide),
   C3_cascade_idempotence.2.2.2.2 true "z@x.com" true dbC3 (by decide)⟩

/-- A state with one workspace `ws-1` owning component `comp-1`, and no data
yet. -/
def dbC1 : DB :=
  { users := [], accounts := [],
    workspaces := [{ id := "ws-1", name := "Proj" }],
    paths := [{ id := "path-1", workspace_id := "ws-1", name := "Ingest",
                normalized_name := "ingest" }],
    components := [{ id := "comp-1", workspace_id := "ws-1", path_id := "path-1",
                     name := "Raw", has_data := true, has_action := false }],
    dataRows := [], blobs := [], nextId := 0 }

/-- C1 (counterexample): `create_data_entries` of the older
`bulk_data_handler.py` writes the data row WITHOUT the denormalized
workspace_id attribute, although the owning component `comp-1` belongs to
workspace `ws-1`; the row is therefore absent from the sparse
`WorkspaceDataIndex` and the workspace-scoped query used by
`delete_workspace_cascade` does not find it. -/
theorem C1_counterexample :
    (bulk_data_handler.create_data_entries "comp-1"
        [{ data := "p", dataMap := "m" }] true dbC1).2.dataRows
      = [{ id := "data-0", component_id := "comp-1", workspace_id := none,
           data := "p", data_map := "m", s3_location := none, addToDataLake := true }]
    ∧ cascade_delete.query_data_by_workspace "ws-1"
        (bulk_data_handler.create_data_entries "comp-1"
          [{ data := "p", dataMap := "m" }] true dbC1).2 = []
    ∧ dbC1.components
        = [{ id := "comp-1", workspace_id := "ws-1", path_id := "path-1",
             name := "Raw", has_data := true, has_action := false }] := by
  refine ⟨by decide, by decide, by decide⟩

theorem post_create_data_mem (cid wsid : String) (events : List DataEvent)
    (flag : Bool) (db : DB) :
    ∀ d ∈ (post_bulk_data_handler.create_data_entries cid wsid events flag db).2.dataRows,
      d ∈ db.dataRows ∨ (d.workspace_id = some wsid ∧ d.component_id = cid) := by
  induction events generalizing db with
  | nil => intro d hd; exact Or.inl hd
  | cons e rest ih =>
    intro d hd
    have hd2 : d ∈ (post_bulk_data_handler.create_data_entries cid wsid rest flag
        { db with nextId := db.nextId + 1,
                  dataRows := db.dataRows ++
                    [{ id := "data-" ++ toString db.nextId, component_id := cid,
                       workspace_id := some wsid, data := e.data, data_map := e.dataMap,
                       s3_location := none, addToDataLake := flag }] }).2.dataRows := hd
    rcases ih _ d hd2 with h | h
    · rcases List.mem_append.mp h with h1 | h2
      · exact Or.inl h1
      · have hrow : d
            = { id := "data-" ++ toString db.nextId, component_id := cid,
                workspace_id := some wsid, data := e.data, data_map := e.dataMap,
                s3_location := none, addToDataLake := flag } := by simpa using h2
        exact Or.inr (by rw [hrow]; exact ⟨rfl, rfl⟩)
    · exact Or.inr h

/-- C1 (amended): every Data row written by the CURRENT bulk-create flow
(`post_bulk_data_handler.create_data_entries`) carries the denormalized
workspace_id of its owning component and is found by the workspace-scoped
Data query that `delete_workspace_cascade` uses; rows written by the older
`bulk_data_handler.create_data_entries` omit the attribute and are invisible
to that query (see the counterexample). -/
theorem C1_post_bulk_rows_carry_workspace_id (cid wsid : String)
    (events : List DataEvent) (flag : Bool) (db : DB) :
    ∀ d ∈ (post_bulk_data_handler.create_data_entries cid wsid events flag db).2.dataRows,
      d ∈ db.dataRows
      ∨ (d.workspace_id = some wsid ∧ d.component_id = cid
          ∧ d ∈ cascade_delete.query_data_by_workspace wsid
              (post_bulk_data_handler.create_data_entries cid wsid events flag db).2) := by
  intro d hd
  rcases post_create_data_mem cid wsid events flag db d hd with h | ⟨h1, h2⟩
  · exact Or.inl h
  · refine Or.inr ⟨h1, h2, ?_⟩
    refine List.mem_filter.mpr ⟨hd, ?_⟩
    simp [h1]

/-- C1 (witness): the amended theorem evaluated on the concrete state at the
concrete row created by the post-bulk flow. -/
theorem C1_witness :
    ({ id := "data-0", component_id := "comp-1", workspace_id := some "ws-1",
       data := "p", data_map := "m", s3_location := none,
       addToDataLake := true } : DataRow)
      ∈ (post_bulk_data_handler.create_data_entries "comp-1" "ws-1"
          [{ data := "p", dataMap := "m" }] true dbC1).2.dataRows
    ∧ (({ id := "data-0", component_id := "comp-1", workspace_id := some "ws-1",
          data := "p", data_map := "m", s3_location := none,
          addToDataLake := true } : DataRow) ∈ dbC1.dataRows
        ∨ ((some "ws-1" : Option String) = some "ws-1" ∧ "comp-1" = "comp-1"
            ∧ ({ id := "data-0", component_id := "comp-1", workspace_id := some "ws-1",
                 data := "p", data_map := "m", s3_location := none,
                 addToDataLake := true } : DataRow)
              ∈ cascade_delete.query_data_by_workspace "ws-1"
                  (post_bulk_data_handler.create_data_entries "comp-1" "ws-1"
                    [{ data := "p", dataMap := "m" }] true dbC1).2)) :=
  ⟨by decide,
   C1_post_bulk_rows_carry_workspace_id "comp-1" "ws-1"
     [{ data := "p", dataMap := "m" }] true dbC1 _ (by decide)⟩

/-! ## Get-or-create convergence helpers -/

theorem bulk_path_convergence (wsid name : String) (db : DB)
    (h : db.paths.filter (fun p =>
      p.workspace_id == wsid && p.normalized_name == normalize_name name) = []) :
    bulk_data_handler.get_or_create_path wsid name db
      = (.ok ("path-" ++ toString db.nextId, true),
         { db with nextId := db.nextId + 1,
                   paths := (db.paths ++
                     [{ id := "path-" ++ toString db.nextId,
                        workspace_id := wsid, name := name,
                        normalized_name := normalize_name name }]) })
    ∧ bulk_data_handler.get_or_create_path wsid name
        (bulk_data_handler.get_or_create_path wsid name db).2
      = (.ok ("path-" ++ toString db.nextId, false),
         (bulk_data_handler.get_or_create_path wsid name db).2) := by
  have hfirst : bulk_data_handler.get_or_create_path wsid name db
      = (.ok ("path-" ++ toString db.nextId, true),
         { db with nextId := db.nextId + 1,
                   paths := (db.paths ++
                     [{ id := "path-" ++ toString db.nextId,
                        workspace_id := wsid, name := name,
                        normalized_name := normalize_name name }]) }) := by
    simp [bulk_data_handler.get_or_create_path, generate_id, h]
  refine ⟨hfirst, ?_⟩
  rw [hfirst]
  simp [bulk_data_handler.get_or_create_path, generate_id, List.filter_append, h]

theorem bulk_component_convergence (wsid pid name : String) (db : DB)
    (h : db.components.filter (fun c => c.path_id == pid && c.name == name) = []) :
    bulk_data_handler.get_or_create_component wsid pid name db
      = (.ok ("comp-" ++ toString db.nextId, true),
         { db with nextId := db.nextId + 1,
                   components := (db.components ++
                     [{ id := "comp-" ++ toString db.nextId,
                        workspace_id := wsid, path_id := pid, name := name,
                        has_data := true, has_action := false }]) })
    ∧ bulk_data_handler.get_or_create_component wsid pid name
        (bulk_data_handler.get_or_create_component wsid pid name db).2
      = (.ok ("comp-" ++ toString db.nextId, false),
         (bulk_data_handler.get_or_create_component wsid pid name db).2) := by
  have hfirst : bulk_data_handler.get_or_create_component wsid pid name db
      = (.ok ("comp-" ++ toString db.nextId, true),
         { db with nextId := db.nextId + 1,
                   components := (db.components ++
                     [{ id := "comp-" ++ toString db.nextId,
                        workspace_id := wsid, path_id := pid, name := name,
                        has_data := true, has_action := false }]) }) := by
    simp [bulk_data_handler.get_or_create_component, generate_id, h]
  refine ⟨hfirst, ?_⟩
  rw [hfirst]
  simp [bulk_data_handler.get_or_create_component, generate_id, List.filter_append, h]

theorem bulk_workspace_convergence (uid name : String) (db : DB)
    (h : db.workspaces.filter (fun w => w.name == name) = [])
    (hfresh : db.accounts.filter (fun a =>
      a.user_id == uid && a.workspace_id == ("ws-" ++ toString db.nextId)) = []) :
    bulk_data_handler.get_or_create_workspace uid name db
      = (.ok ("ws-" ++ toString db.nextId, true),
         { db with nextId := db.nextId + 2,
                   workspaces := (db.workspaces ++
                     [{ id := "ws-" ++ toString db.nextId, name := name }]),
                   accounts := (db.accounts ++
                     [{ id := "acc-" ++ toString (db.nextId + 1), user_id := uid,
                        workspace_id := "ws-" ++ toString db.nextId,
                        user_is_workspace_admin := true }]) })
    ∧ bulk_data_handler.get_or_create_workspace uid name
        (bulk_data_handler.get_or_create_workspace uid name db).2
      = (.ok ("ws-" ++ toString db.nextId, false),
         (bulk_data_handler.get_or_create_workspace uid name db).2) := by
  have hfirst : bulk_data_handler.get_or_create_workspace uid name db
      = (.ok ("ws-" ++ toString db.nextId, true),
         { db with nextId := db.nextId + 2,
                   workspaces := (db.workspaces ++
                     [{ id := "ws-" ++ toString db.nextId, name := name }]),
                   accounts := (db.accounts ++
                     [{ id := "acc-" ++ toString (db.nextId + 1), user_id := uid,
                        workspace_id := "ws-" ++ toString db.nextId,
                        user_is_workspace_admin := true }]) }) := by
    simp [bulk_data_handler.get_or_create_workspace, bulk_data_handler.create_workspace,
      bulk_data_handler.create_account, generate_id, h]
  refine ⟨hfirst, ?_⟩
  rw [hfirst]
  simp [bulk_data_handler.get_or_create_workspace, generate_id, List.filter_append, h, hfresh]

theorem post_path_conflict_on_rerun (wsid name : String) (db : DB)
    (h : post_bulk_data_handler.check_path_name_exists wsid name db = false) :
    post_bulk_data_handler.get_or_create_path wsid name db
      = (.ok ("path-" ++ toString db.nextId, true),
         { db with nextId := db.nextId + 1,
                   paths := (db.paths ++
                     [{ id := "path-" ++ toString db.nextId,
                        workspace_id := wsid, name := name,
                        normalized_name := normalize_name name }]) })
    ∧ post_bulk_data_handler.get_or_create_path wsid name
        (post_bulk_data_handler.get_or_create_path wsid name db).2
      = (.error (.ConflictError
           ("Path named " ++ name ++ " already exists in this workspace")),
         (post_bulk_data_handler.get_or_create_path wsid name db).2) := by
  have hfirst : post_bulk_data_handler.get_or_create_path wsid name db
      = (.ok ("path-" ++ toString db.nextId, true),
         { db with nextId := db.nextId + 1,
                   paths := (db.paths ++
                     [{ id := "path-" ++ toString db.nextId,
                        workspace_id := wsid, name := name,
                        normalized_name := normalize_name name }]) }) := by
    simp [post_bulk_data_handler.get_or_create_path, generate_id, h]
  refine ⟨hfirst, ?_⟩
  rw [hfirst]
  have hcheck : post_bulk_data_handler.check_path_name_exists wsid name
      { db with nextId := db.nextId + 1,
                paths := (db.paths ++
                  [{ id := "path-" ++ toString db.nextId,
                     workspace_id := wsid, name := name,
                     normalized_name := normalize_name name }]) } = true := by
    unfold post_bulk_data_handler.check_path_name_exists at h ⊢
    rw [List.any_append, h]
    simp
  simp [post_bulk_data_handler.get_or_create_path, hcheck]

/-- C5 (counterexample): with no path named `Ingest` in workspace `ws-1`,
the first `post_bulk_data_handler.get_or_create_path` call creates and
returns (path-0, created=true), but the second identical call raises a
ConflictError instead of returning (path-0, created=false) — contradicting
the claim that every resolve function converges on the second call. -/
theorem C5_counterexample :
    (post_bulk_data_handler.get_or_create_path "ws-1" "Ingest" dbC3).1
      = .ok ("path-0", true)
    ∧ (post_bulk_data_handler.get_or_create_path "ws-1" "Ingest"
        (post_bulk_data_handler.get_or_create_path "ws-1" "Ingest" dbC3).2).1
      = .error (.ConflictError "Path named Ingest already exists in this workspace") := by
  refine ⟨rfl, rfl⟩

/-- C5 (amended): the `bulk_data_handler` get-or-create functions converge —
called twice on a scope/name that did not exist, they return the same id
both times with created=true exactly on the first call and write nothing new
on the second — while the `post_bulk_data_handler` variant of
`get_or_create_path` instead fails the second call with a ConflictError. -/
theorem C5_get_or_create_convergence :
    (∀ (uid name : String) (db : DB),
      db.workspaces.filter (fun w => w.name == name) = [] →
      db.accounts.filter (fun a =>
        a.user_id == uid && a.workspace_id == ("ws-" ++ toString db.nextId)) = [] →
      (bulk_data_handler.get_or_create_workspace uid name db).1
          = .ok ("ws-" ++ toString db.nextId, true)
        ∧ bulk_data_handler.get_or_create_workspace uid name
            (bulk_data_handler.get_or_create_workspace uid name db).2
          = (.ok ("ws-" ++ toString db.nextId, false),
             (bulk_data_handler.get_or_create_workspace uid name db).2))
    ∧ (∀ (wsid name : String) (db : DB),
      db.paths.filter (fun p =>
        p.workspace_id == wsid && p.normalized_name == normalize_name name) = [] →
      (bulk_data_handler.get_or_create_path wsid name db).1
          = .ok ("path-" ++ toString db.nextId, true)
        ∧ bulk_data_handler.get_or_create_path wsid name
            (bulk_data_handler.get_or_create_path wsid name db).2
          = (.ok ("path-" ++ toString db.nextId, false),
             (bulk_data_handler.get_or_create_path wsid name db).2))
    ∧ (∀ (wsid pid name : String) (db : DB),
      db.components.filter (fun c => c.path_id == pid && c.name == name) = [] →
      (bulk_data_handler.get_or_create_component wsid pid name db).1
          = .ok ("comp-" ++ toString db.nextId, true)
        ∧ bulk_data_handler.get_or_create_component wsid pid name
            (bulk_data_handler.get_or_create_component wsid pid name db).2
          = (.ok ("comp-" ++ toString db.nextId, false),
             (bulk_data_handler.get_or_create_component wsid pid name db).2))
    ∧ (∀ (wsid name : String) (db : DB),
      post_bulk_data_handler.check_path_name_exists wsid name db = false →
      (post_bulk_data_handler.get_or_create_path wsid name db).1
          = .ok ("path-" ++ toString db.nextId, true)
        ∧ post_bulk_data_handler.get_or_create_path wsid name
            (post_bulk_data_handler.get_or_create_path wsid name db).2
          = (.error (.ConflictError
               ("Path named " ++ name ++ " already exists in this workspace")),
             (post_bulk_data_handler.get_or_create_path wsid name db).2)) := by
  refine ⟨?_, ?_, ?_, ?_⟩
  · intro uid name db h hfresh
    exact ⟨by rw [(bulk_workspace_convergence uid name db h hfresh).1],
           (bulk_workspace_convergence uid name db h hfresh).2⟩
  · intro wsid name db h
    exact ⟨by rw [(bulk_path_convergence wsid name db h).1],
           (bulk_path_convergence wsid name db h).2⟩
  · intro wsid pid name db h
    exact ⟨by rw [(bulk_component_convergence wsid pid name db h).1],
           (bulk_component_convergence wsid pid name db h).2⟩
  · intro wsid name db h
    exact ⟨by rw [(post_path_conflict_on_rerun wsid name db h).1],
           (post_path_conflict_on_rerun wsid name db h).2⟩

/-- C5 (witness): the amended theorem instantiated on a concrete state,
with each uniqueness-precondition discharged by evaluation. -/
theorem C5_witness :
    ((bulk_data_handler.get_or_create_workspace "user-1" "NewProj" dbC3).1
        = .ok ("ws-0", true)
      ∧ bulk_data_handler.get_or_create_workspace "user-1" "NewProj"
          (bulk_data_handler.get_or_create_workspace "user-1" "NewProj" dbC3).2
        = (.ok ("ws-0", false),
           (bulk_data_handler.get_or_create_workspace "user-1" "NewProj" dbC3).2))
    ∧ ((bulk_data_handler.get_or_create_path "ws-1" "My Path" dbC3).1
        = .ok ("path-0", true)
      ∧ bulk_data_handler.get_or_create_path "ws-1" "My Path"
          (bulk_data_handler.get_or_create_path "ws-1" "My Path" dbC3).2
        = (.ok ("path-0", false),
           (bulk_data_handler.get_or_create_path "ws-1" "My Path" dbC3).2))
    ∧ ((bulk_data_handler.get_or_create_component "ws-1" "path-1" "Raw" dbC3).1
        = .ok ("comp-0", true)
      ∧ bulk_data_handler.get_or_create_component "ws-1" "path-1" "Raw"
          (bulk_data_handler.get_or_create_component "ws-1" "path-1" "Raw" dbC3).2
        = (.ok ("comp-0", false),
           (bulk_data_handler.get_or_create_component "ws-1" "path-1" "Raw" dbC3).2))
    ∧ ((post_bulk_data_handler.get_or_create_path "ws-1" "Raw Data" dbC3).1
        = .ok ("path-0", true)
      ∧ post_bulk_data_handler.get_or_create_path "ws-1" "Raw Data"
          (post_bulk_data_handler.get_or_create_path "ws-1" "Raw Data" dbC3).2
        = (.error (.ConflictError "Path named Raw Data already exists in this workspace"),
           (post_bulk_data_handler.get_or_create_path "ws-1" "Raw Data" dbC3).2)) :=
  ⟨C5_get_or_create_convergence.1 "user-1" "NewProj" dbC3 (by decide) (by decide),
   C5_get_or_create_convergence.2.1 "ws-1" "My Path" dbC3 (by decide),
   C5_get_or_create_convergence.2.2.1 "ws-1" "path-1" "Raw" dbC3 (by decide),
   C5_get_or_create_convergence.2.2.2 "ws-1" "Raw Data" dbC3 (by decide)⟩

theorem gocw_auth_fail (uid wsname : String) (db : DB)
    (hexists : db.workspaces.filter (fun w => w.name == wsname) ≠ [])
    (hnoadmin : ∀ w ∈ db.workspaces, w.name = wsname →
      (Option.all (fun acct => !acct.user_is_workspace_admin)
        ((db.accounts.filter (fun a =>
          a.user_id == uid && a.workspace_id == w.id)).head?)) = true) :
    ∃ msg, bulk_data_handler.get_or_create_workspace uid wsname db
      = (.error (.AuthorizationError msg), db) := by
  cases hscan : db.workspaces.filter (fun w => w.name == wsname) with
  | nil => exact absurd hscan hexists
  | cons w rest =>
    have hwmem : w ∈ db.workspaces.filter (fun x => x.name == wsname) := by
      rw [hscan]; exact List.mem_cons_self _ _
    have hn := hnoadmin w (List.mem_filter.mp hwmem).1
      (beq_iff_eq.mp (List.mem_filter.mp hwmem).2)
    cases hacc : db.accounts.filter (fun a => a.user_id == uid && a.workspace_id == w.id) with
    | nil =>
      refine ⟨"User is not associated with workspace " ++ wsname, ?_⟩
      simp [bulk_data_handler.get_or_create_workspace, hscan, hacc]
    | cons acct arest =>
      rw [hacc] at hn
      have hadm : acct.user_is_workspace_admin = false := by simpa using hn
      refine ⟨"User is not an admin of workspace " ++ wsname, ?_⟩
      simp [bulk_data_handler.get_or_create_workspace, hscan, hacc, hadm]

/-- C6: if a workspace with the requested name already exists and the
requesting user holds no account on any workspace of that name, or only a
non-admin one, the bulk-create handler fails with an AuthorizationError and
creates no rows in any table (the state is returned unchanged). -/
theorem C6_authorization_failure_creates_no_rows (input : BulkInput) (db : DB)
    (uid : String)
    (huser : bulk_data_handler.get_admin_user input.admin_email db = .ok uid)
    (hexists : db.workspaces.filter (fun w => w.name == input.workspace_name) ≠ [])
    (hnoadmin : ∀ w ∈ db.workspaces, w.name = input.workspace_name →
      (Option.all (fun acct => !acct.user_is_workspace_admin)
        ((db.accounts.filter (fun a =>
          a.user_id == uid && a.workspace_id == w.id)).head?)) = true) :
    ∃ msg, bulk_data_handler.handler input db
      = (.error (.AuthorizationError msg), db) := by
  obtain ⟨msg, hmsg⟩ := gocw_auth_fail uid input.workspace_name db hexists hnoadmin
  refine ⟨msg, ?_⟩
  simp [bulk_data_handler.handler, huser, hmsg]

/-- The state of the C6 scenario: user `b@y.com` holds a NON-admin account
on the existing workspace `Proj`. -/
def dbC6 : DB :=
  { users := [{ id := "user-2", email := "b@y.com" }],
    accounts := [{ id := "acc-2", user_id := "user-2", workspace_id := "ws-1",
                   user_is_workspace_admin := false }],
    workspaces := [{ id := "ws-1", name := "Proj" }],
    paths := [], components := [], dataRows := [], blobs := [], nextId := 0 }

/-- The C6 scenario request: bulk-create against workspace name `Proj`. -/
def inputC6 : BulkInput :=
  { admin_email := "b@y.com", workspace_name := "Proj", path_name := "Ingest",
    component_name := "Raw", data := [{ data := "p", dataMap := "m" }],
    addToDataLake := true }

/-- C6 (witness): the theorem evaluated on the concrete scenario state. -/
theorem C6_witness :
    ∃ msg, bulk_data_handler.handler inputC6 dbC6
      = (.error (.AuthorizationError msg), dbC6) :=
  C6_authorization_failure_creates_no_rows inputC6 dbC6 "user-2" rfl
    (by decide) (by decide)

/-- C7: after a path named `My Path` is created in a workspace, creating a
second path named `my path` in the same workspace through the
`post_bulk_data_handler` flow fails with a ConflictError and writes nothing,
because both names normalize (lowercase, spaces to hyphens) to `my-path`. -/
theorem C7_normalized_path_name_conflict (wsid : String) (db : DB)
    (h : post_bulk_data_handler.check_path_name_exists wsid "My Path" db = false) :
    normalize_name "My Path" = "my-path"
    ∧ normalize_name "my path" = "my-path"
    ∧ (post_bulk_data_handler.get_or_create_path wsid "My Path" db).1
        = .ok ("path-" ++ toString db.nextId, true)
    ∧ post_bulk_data_handler.get_or_create_path wsid "my path"
        (post_bulk_data_handler.get_or_create_path wsid "My Path" db).2
      = (.error (.ConflictError "Path named my path already exists in this workspace"),
         (post_bulk_data_handler.get_or_create_path wsid "My Path" db).2) := by
  have hfirst := (post_path_conflict_on_rerun wsid "My Path" db h).1
  refine ⟨by decide, by decide, by rw [hfirst], ?_⟩
  rw [hfirst]
  have hnorm : normalize_name "my path" = normalize_name "My Path" := by decide
  have hcheck2 : post_bulk_data_handler.check_path_name_exists wsid "my path"
      { db with nextId := db.nextId + 1,
                paths := (db.paths ++
                  [{ id := "path-" ++ toString db.nextId,
                     workspace_id := wsid, name := "My Path",
                     normalized_name := normalize_name "My Path" }]) } = true := by
    unfold post_bulk_data_handler.check_path_name_exists at h ⊢
    rw [hnorm, List.any_append, h]
    simp
  simp [post_bulk_data_handler.get_or_create_path, hcheck2]

/-- C7 (witness): the theorem evaluated on a concrete state with no path
named `my-path` yet. -/
theorem C7_witness :
    normalize_name "My Path" = "my-path"
    ∧ normalize_name "my path" = "my-path"
    ∧ (post_bulk_data_handler.get_or_create_path "ws-1" "My Path" dbC3).1
        = .ok ("path-0", true)
    ∧ post_bulk_data_handler.get_or_create_path "ws-1" "my path"
        (post_bulk_data_handler.get_or_create_path "ws-1" "My Path" dbC3).2
      = (.error (.ConflictError "Path named my path already exists in this workspace"),
         (post_bulk_data_handler.get_or_create_path "ws-1" "My Path" dbC3).2) :=
  C7_normalized_path_name_conflict "ws-1" dbC3 (by decide)

/-- C10: when several workspaces share the requested name, the bulk
`get_or_create_workspace` checks the caller's account and admin flag only
against the FIRST workspace returned by the name scan, and on success
returns that workspace's id; accounts the caller holds on the other
same-named workspaces (admin or not) neither grant access nor change the
returned id. -/
theorem C10_first_scan_match_governs (uid wsname : String) (db : DB)
    (w1 : WorkspaceRow) (rest : List WorkspaceRow)
    (hscan : db.workspaces.filter (fun w => w.name == wsname) = w1 :: rest) :
    (db.accounts.filter (fun a => a.user_id == uid && a.workspace_id == w1.id) = [] →
      bulk_data_handler.get_or_create_workspace uid wsname db
        = (.error (.AuthorizationError
            ("User is not associated with workspace " ++ wsname)), db))
    ∧ (∀ acct arest,
        db.accounts.filter (fun a => a.user_id == uid && a.workspace_id == w1.id)
          = acct :: arest →
        acct.user_is_workspace_admin = true →
        bulk_data_handler.get_or_create_workspace uid wsname db
          = (.ok (w1.id, false), db))
    ∧ (∀ acct arest,
        db.accounts.filter (fun a => a.user_id == uid && a.workspace_id == w1.id)
          = acct :: arest →
        acct.user_is_workspace_admin = false →
        bulk_data_handler.get_or_create_workspace uid wsname db
          = (.error (.AuthorizationError
              ("User is not an admin of workspace " ++ wsname)), db)) := by
  refine ⟨?_, ?_, ?_⟩
  · intro hacc
    simp [bulk_data_handler.get_or_create_workspace, hscan, hacc]
  · intro acct arest hacc hadm
    simp [bulk_data_handler.get_or_create_workspace, hscan, hacc, hadm]
  · intro acct arest hacc hadm
    simp [bulk_data_handler.get_or_create_workspace, hscan, hacc, hadm]

/-- Two workspaces named `Proj`; the caller is admin of the SECOND one only
and holds no account on the first. -/
def dbC10 : DB :=
  { users := [{ id := "user-2", email := "b@y.com" }],
    accounts := [{ id := "acc-9", user_id := "user-2", workspace_id := "ws-2",
                   user_is_workspace_admin := true }],
    workspaces := [{ id := "ws-1", name := "Proj" }, { id := "ws-2", name := "Proj" }],
    paths := [], components := [], dataRows := [], blobs := [], nextId := 0 }

/-- C10 (witness): the theorem evaluated on the two-workspace state — the
admin account on the second `Proj` does not help: the call still fails on
the first scan match. -/
theorem C10_witness :
    bulk_data_handler.get_or_create_workspace "user-2" "Proj" dbC10
      = (.error (.AuthorizationError "User is not associated with workspace Proj"),
         dbC10) :=
  (C10_first_scan_match_governs "user-2" "Proj" dbC10
    { id := "ws-1", name := "Proj" } [{ id := "ws-2", name := "Proj" }] (by decide)).1
    (by decide)

/-! ## Lemmas about the dict-style lookups of the orphan reconciler -/

theorem lookup_foldl_no_match (getId : α → String) {i : String} (rows : List α)
    (init : Option α) (h : ∀ p ∈ rows, getId p ≠ i) :
    rows.foldl (fun acc q => if getId q == i then some q else acc) init = init := by
  induction rows generalizing init with
  | nil => rfl
  | cons q rest ih =>
    have hq : (getId q == i) = false := beq_eq_false_iff_ne.mpr (h q (by simp))
    show List.foldl _ (if getId q == i then some q else init) rest = init
    rw [hq]
    exact ih init (fun p hp => h p (by simp [hp]))

theorem lookup_foldl_eq_none (getId : α → String) {i : String} (rows : List α)
    (init : Option α)
    (h : rows.foldl (fun acc q => if getId q == i then some q else acc) init = none) :
    init = none ∧ ∀ p ∈ rows, getId p ≠ i := by
  induction rows generalizing init with
  | nil => exact ⟨h, by intro p hp; cases hp⟩
  | cons q rest ih =>
    have h2 : rest.foldl (fun acc r => if getId r == i then some r else acc)
        (if getId q == i then some q else init) = none := h
    rcases hbeq : (getId q == i) with _ | _
    · rw [hbeq] at h2
      simp only [Bool.false_eq_true, if_false] at h2
      obtain ⟨hinit, hrest⟩ := ih _ h2
      refine ⟨hinit, ?_⟩
      intro p hp
      rcases List.mem_cons.mp hp with rfl | hmem
      · exact beq_eq_false_iff_ne.mp hbeq
      · exact hrest p hmem
    · rw [hbeq] at h2
      simp only [if_true] at h2
      obtain ⟨hinit, _⟩ := ih _ h2
      simp at hinit

theorem lookup_foldl_some (getId : α → String) {i : String} (rows : List α)
    (init : Option α) (p : α)
    (h : rows.foldl (fun acc q => if getId q == i then some q else acc) init = some p) :
    init = some p ∨ (p ∈ rows ∧ getId p = i) := by
  induction rows generalizing init with
  | nil => exact Or.inl h
  | cons q rest ih =>
    have h2 : rest.foldl (fun acc r => if getId r == i then some r else acc)
        (if getId q == i then some q else init) = some p := h
    rcases hbeq : (getId q == i) with _ | _
    · rw [hbeq] at h2
      simp only [Bool.false_eq_true, if_false] at h2
      rcases ih _ h2 with hinit | hmem
      · exact Or.inl hinit
      · exact Or.inr ⟨List.mem_cons_of_mem _ hmem.1, hmem.2⟩
    · rw [hbeq] at h2
      simp only [if_true] at h2
      rcases ih _ h2 with hinit | hmem
      · have hqp : q = p := by injection hinit
        subst hqp
        exact Or.inr ⟨List.mem_cons_self _ _, beq_iff_eq.mp hbeq⟩
      · exact Or.inr ⟨List.mem_cons_of_mem _ hmem.1, hmem.2⟩

theorem repair_components_components (orphans : List ComponentRow) (db : DB) :
    (OrphanWorkspaceCleaner.repair_components orphans db).components
      = db.components.filter (fun x => !(orphans.any (fun c => x.id == c.id))) := by
  induction orphans generalizing db with
  | nil => simp [OrphanWorkspaceCleaner.repair_components]
  | cons c rest ih =>
    have hcons : OrphanWorkspaceCleaner.repair_components (c :: rest) db
        = OrphanWorkspaceCleaner.repair_components rest
            (OrphanWorkspaceCleaner.repair_component c db) := rfl
    have hstep : (OrphanWorkspaceCleaner.repair_component c db).components
        = db.components.filter (fun x => !(x.id == c.id)) := rfl
    rw [hcons, ih, hstep, List.filter_filter]
    refine List.filter_congr ?_
    intro x _
    simp only [List.any_cons, Bool.not_or, Bool.and_comm]

theorem repair_components_data (orphans : List ComponentRow) (db : DB) :
    ∀ d ∈ (OrphanWorkspaceCleaner.repair_components orphans db).dataRows,
      d ∈ db.dataRows ∧ ∀ c ∈ orphans, d.component_id ≠ c.id := by
  induction orphans generalizing db with
  | nil =>
    intro d hd
    exact ⟨hd, by intro c hc; cases hc⟩
  | cons c rest ih =>
    intro d hd
    have hd' := ih (OrphanWorkspaceCleaner.repair_component c db) d hd
    have h1 : (OrphanWorkspaceCleaner.repair_component c db).dataRows
        = delete_each (fun r : DataRow => r.id)
            (db.dataRows.filter (fun r => r.component_id == c.id)) db.dataRows := rfl
    have hin : d ∈ db.dataRows ∧
        (!((db.dataRows.filter (fun r => r.component_id == c.id)).any
          (fun i => d.id == i.id))) = true := by
      have hmem := hd'.1
      rw [h1, delete_each_eq_filter] at hmem
      exact ⟨(List.mem_filter.mp hmem).1, (List.mem_filter.mp hmem).2⟩
    refine ⟨hin.1, ?_⟩
    intro c' hc'
    rcases List.mem_cons.mp hc' with rfl | hcrest
    · intro heq
      have hdf : d ∈ db.dataRows.filter (fun r => r.component_id == c'.id) :=
        List.mem_filter.mpr ⟨hin.1, by rw [heq]; exact beq_self_eq_true _⟩
      have hany : (db.dataRows.filter (fun r => r.component_id == c'.id)).any
          (fun i => d.id == i.id) = true :=
        List.any_eq_true.mpr ⟨d, hdf, beq_self_eq_true _⟩
      have := hin.2
      rw [hany] at this
      simp at this
    · exact hd'.2 c' hcrest

theorem is_orphaned_iff (db : DB) (hp : (db.paths.map (fun p => p.id)).Nodup)
    (c : ComponentRow) :
    OrphanWorkspaceCleaner.component_is_orphaned db c = true ↔
      ((¬ ∃ w ∈ db.workspaces, w.id = c.workspace_id)
        ∨ (¬ ∃ p ∈ db.paths, p.id = c.path_id)
        ∨ (∃ p ∈ db.paths, p.id = c.path_id ∧ p.workspace_id ≠ c.workspace_id)) := by
  cases hlp : OrphanWorkspaceCleaner.lookup_path db c.path_id with
  | none =>
    have hno := lookup_foldl_eq_none (fun p : PathRow => p.id) db.paths none hlp
    have hlhs : OrphanWorkspaceCleaner.component_is_orphaned db c = true := by
      unfold OrphanWorkspaceCleaner.component_is_orphaned
      rw [hlp]
    rw [hlhs]
    constructor
    · intro _
      refine Or.inr (Or.inl ?_)
      rintro ⟨p, hpmem, hpid⟩
      exact hno.2 p hpmem hpid
    · intro _
      rfl
  | some p =>
    have hsome := lookup_foldl_some (fun q : PathRow => q.id) db.paths none p hlp
    rcases hsome with hin | ⟨hpmem, hpid0⟩
    · cases hin
    have hpid : p.id = c.path_id := hpid0
    cases hlw : OrphanWorkspaceCleaner.lookup_workspace db c.workspace_id with
    | none =>
      have hnow := lookup_foldl_eq_none (fun w : WorkspaceRow => w.id) db.workspaces none hlw
      have hlhs : OrphanWorkspaceCleaner.component_is_orphaned db c = true := by
        unfold OrphanWorkspaceCleaner.component_is_orphaned
        rw [hlp, hlw]
        rfl
      rw [hlhs]
      constructor
      · intro _
        refine Or.inl ?_
        rintro ⟨w, hwmem, hwid⟩
        exact hnow.2 w hwmem hwid
      · intro _
        rfl
    | some w0 =>
      have hwsome := lookup_foldl_some (fun w : WorkspaceRow => w.id) db.workspaces none w0 hlw
      rcases hwsome with hwin | ⟨hwmem, hwid0⟩
      · cases hwin
      have hwid : w0.id = c.workspace_id := hwid0
      have hlhs : OrphanWorkspaceCleaner.component_is_orphaned db c
          = !(p.workspace_id == c.workspace_id) := by
        unfold OrphanWorkspaceCleaner.component_is_orphaned
        rw [hlp, hlw]
        rfl
      rw [hlhs]
      constructor
      · intro hne
        refine Or.inr (Or.inr ⟨p, hpmem, hpid, ?_⟩)
        simpa using hne
      · rintro (hA | hB | ⟨p0, hp0mem, hp0id, hp0ne⟩)
        · exact absurd ⟨w0, hwmem, hwid⟩ hA
        · exact absurd ⟨p, hpmem, hpid⟩ hB
        · have hpp : p0 = p :=
            List.inj_on_of_nodup_map hp hp0mem hpmem (by rw [hp0id, hpid])
          rw [← hpp, beq_eq_false_iff_ne.mpr hp0ne]
          rfl

/-- C4: a Component is flagged by the orphan sweep exactly when its
workspace_id is not an existing Workspace, or its path_id is not an existing
Path, or the referenced Path's workspace_id differs from the Component's
own; and after the repair pass, a repaired component is no longer flagged
and no Data row referencing it remains. -/
theorem C4_orphan_detection_and_repair (db : DB)
    (hp : (db.paths.map (fun p => p.id)).Nodup) :
    (∀ c, c ∈ OrphanWorkspaceCleaner.orphaned_components db ↔
      (c ∈ db.components ∧
        ((¬ ∃ w ∈ db.workspaces, w.id = c.workspace_id)
          ∨ (¬ ∃ p ∈ db.paths, p.id = c.path_id)
          ∨ (∃ p ∈ db.paths, p.id = c.path_id ∧ p.workspace_id ≠ c.workspace_id))))
    ∧ (∀ c ∈ OrphanWorkspaceCleaner.orphaned_components db,
        c ∉ OrphanWorkspaceCleaner.orphaned_components
            (OrphanWorkspaceCleaner.cleanup_orphaned_components db)
        ∧ ∀ d ∈ (OrphanWorkspaceCleaner.cleanup_orphaned_components db).dataRows,
            d.component_id ≠ c.id) := by
  constructor
  · intro c
    unfold OrphanWorkspaceCleaner.orphaned_components
    rw [List.mem_filter]
    exact and_congr_right (fun _ => is_orphaned_iff db hp c)
  · intro c hc
    constructor
    · intro hcontra
      have hmem : c ∈ (OrphanWorkspaceCleaner.cleanup_orphaned_components db).components := by
        have := hcontra
        unfold OrphanWorkspaceCleaner.orphaned_components at this
        exact (List.mem_filter.mp this).1
      have hclean : (OrphanWorkspaceCleaner.cleanup_orphaned_components db).components
          = db.components.filter (fun x =>
              !((OrphanWorkspaceCleaner.orphaned_components db).any
                (fun c0 => x.id == c0.id))) :=
        repair_components_components _ _
      rw [hclean] at hmem
      have hpred := (List.mem_filter.mp hmem).2
      have hany : (OrphanWorkspaceCleaner.orphaned_components db).any
          (fun c0 => c.id == c0.id) = true :=
        List.any_eq_true.mpr ⟨c, hc, beq_self_eq_true _⟩
      rw [hany] at hpred
      simp at hpred
    · intro d hd
      exact (repair_components_data (OrphanWorkspaceCleaner.orphaned_components db)
        db d hd).2 c hc

/-- The orphan scenario state: component `comp-1` references path `path-1`,
which has been deleted; a data row still references the component. -/
def dbC4 : DB :=
  { users := [], accounts := [],
    workspaces := [{ id := "ws-1", name := "Proj" }],
    paths := [],
    components := [{ id := "comp-1", workspace_id := "ws-1", path_id := "path-1",
                     name := "Raw", has_data := true, has_action := false }],
    dataRows := [{ id := "data-1", component_id := "comp-1", workspace_id := some "ws-1",
                   data := "p", data_map := "m", s3_location := none,
                   addToDataLake := true }],
    blobs := [], nextId := 0 }

/-! ## Bridging the account selection of delete_specific_accounts -/

/-- The workspace ids that `delete_specific_accounts` cascade-deletes: those
of the selected accounts carrying the admin flag (the code's
`admin_workspaces` list). -/
def adminWsOf (uid : String) (ws_ids : List String) (db : DB) : List String :=
  ((UserAccountDeleter.get_specific_accounts uid ws_ids db).filter
    (fun a => a.user_is_workspace_admin)).map (fun a => a.workspace_id)

/-- The selected non-admin accounts (the code's `regular_accounts` list). -/
def regularAccountsOf (uid : String) (ws_ids : List String) (db : DB) : List AccountRow :=
  (UserAccountDeleter.get_specific_accounts uid ws_ids db).filter
    (fun a => !a.user_is_workspace_admin)

theorem get_specific_accounts_mem_iff (uid : String) (ws_ids : List String) (db : DB)
    (hinv : ∀ a1 ∈ db.accounts, ∀ a2 ∈ db.accounts,
      a1.user_id = a2.user_id → a1.workspace_id = a2.workspace_id → a1 = a2)
    (acct : AccountRow) :
    acct ∈ UserAccountDeleter.get_specific_accounts uid ws_ids db ↔
      (acct ∈ db.accounts ∧ acct.user_id = uid ∧ acct.workspace_id ∈ ws_ids) := by
  unfold UserAccountDeleter.get_specific_accounts
  rw [List.mem_filterMap]
  constructor
  · rintro ⟨w, hw, hhead⟩
    have hmem : acct ∈ db.accounts.filter
        (fun a => a.user_id == uid && a.workspace_id == w) :=
      List.mem_of_mem_head? (by rw [hhead]; rfl)
    have h2 := List.mem_filter.mp hmem
    have h3 := (Bool.and_eq_true _ _ ▸ h2.2)
    refine ⟨h2.1, beq_iff_eq.mp h3.1, ?_⟩
    rw [beq_iff_eq.mp h3.2]
    exact hw
  · rintro ⟨hmem, huid, hws⟩
    refine ⟨acct.workspace_id, hws, ?_⟩
    have hin : acct ∈ db.accounts.filter
        (fun a => a.user_id == uid && a.workspace_id == acct.workspace_id) :=
      List.mem_filter.mpr ⟨hmem, by
        rw [Bool.and_eq_true]
        exact ⟨beq_iff_eq.mpr huid, beq_self_eq_true _⟩⟩
    cases hflt : db.accounts.filter
        (fun a => a.user_id == uid && a.workspace_id == acct.workspace_id) with
    | nil => rw [hflt] at hin; cases hin
    | cons x rest =>
      have hxmem : x ∈ db.accounts.filter
          (fun a => a.user_id == uid && a.workspace_id == acct.workspace_id) := by
        rw [hflt]; exact List.mem_cons_self _ _
      have hx2 := List.mem_filter.mp hxmem
      have hx3 := (Bool.and_eq_true _ _ ▸ hx2.2)
      have hxeq : x = acct := hinv x hx2.1 acct hmem
        (by rw [beq_iff_eq.mp hx3.1, huid]) (beq_iff_eq.mp hx3.2)
      rw [hxeq]
      rfl

theorem memS_adminW_iff (uid : String) (ws_ids : List String) (db : DB)
    (hinv : ∀ a1 ∈ db.accounts, ∀ a2 ∈ db.accounts,
      a1.user_id = a2.user_id → a1.workspace_id = a2.workspace_id → a1 = a2)
    (w : String) :
    memS (adminWsOf uid ws_ids db) w = true ↔
      ∃ acct ∈ db.accounts, acct.user_id = uid ∧ acct.workspace_id = w
        ∧ acct.user_is_workspace_admin = true ∧ w ∈ ws_ids := by
  unfold memS adminWsOf
  rw [List.any_eq_true]
  constructor
  · rintro ⟨x, hx, hbeq⟩
    rcases List.mem_map.mp hx with ⟨a, hafil, hax⟩
    have hmem := List.mem_filter.mp hafil
    have h1 := (get_specific_accounts_mem_iff uid ws_ids db hinv a).mp hmem.1
    have hwx : w = x := beq_iff_eq.mp hbeq
    refine ⟨a, h1.1, h1.2.1, by rw [hax, ← hwx], hmem.2, ?_⟩
    rw [hwx, ← hax]
    exact h1.2.2
  · rintro ⟨acct, hmem, huid, hws, hadmin, hwin⟩
    have hsel : acct ∈ UserAccountDeleter.get_specific_accounts uid ws_ids db :=
      (get_specific_accounts_mem_iff uid ws_ids db hinv acct).mpr
        ⟨hmem, huid, by rw [hws]; exact hwin⟩
    have h2 : acct ∈ (UserAccountDeleter.get_specific_accounts uid ws_ids db).filter
        (fun a => a.user_is_workspace_admin) :=
      List.mem_filter.mpr ⟨hsel, hadmin⟩
    refine ⟨acct.workspace_id, List.mem_map_of_mem _ h2, ?_⟩
    rw [hws]
    exact beq_self_eq_true _

/-- C4 (witness): the theorem evaluated on the concrete orphan scenario. -/
theorem C4_witness :
    ((∀ c, c ∈ OrphanWorkspaceCleaner.orphaned_components dbC4 ↔
      (c ∈ dbC4.components ∧
        ((¬ ∃ w ∈ dbC4.workspaces, w.id = c.workspace_id)
          ∨ (¬ ∃ p ∈ dbC4.paths, p.id = c.path_id)
          ∨ (∃ p ∈ dbC4.paths, p.id = c.path_id ∧ p.workspace_id ≠ c.workspace_id))))
    ∧ (∀ c ∈ OrphanWorkspaceCleaner.orphaned_components dbC4,
        c ∉ OrphanWorkspaceCleaner.orphaned_components
            (OrphanWorkspaceCleaner.cleanup_orphaned_components dbC4)
        ∧ ∀ d ∈ (OrphanWorkspaceCleaner.cleanup_orphaned_components dbC4).dataRows,
            d.component_id ≠ c.id)) :=
  C4_orphan_detection_and_repair dbC4 (by decide)

/-- C9: in execute mode, `delete_specific_accounts` cascade-deletes in its
entirety every requested workspace on which the user holds an admin account
(all its Paths, the Components under those Paths, the Data under those
Components, all its Accounts, and the Workspace row), deletes ONLY the
single account row for each requested workspace where the user's account is
non-admin, and touches nothing else; the final conjunct identifies the
cascaded set with exactly the requested workspaces on which the user holds
an admin account (unique per user/workspace by the account invariant). -/
theorem C9_delete_specific_accounts (ds : Bool) (email : String)
    (ws_ids : List String) (db : DB) (user : UserRow)
    (huser : get_user_by_email email db = some user)
    (hinv : ∀ a1 ∈ db.accounts, ∀ a2 ∈ db.accounts,
      a1.user_id = a2.user_id → a1.workspace_id = a2.workspace_id → a1 = a2)
    (hd : (db.dataRows.map (fun d => d.id)).Nodup)
    (hc : (db.components.map (fun c => c.id)).Nodup)
    (hp : (db.paths.map (fun p => p.id)).Nodup)
    (ha : (db.accounts.map (fun a => a.id)).Nodup) :
    (UserAccountDeleter.delete_specific_accounts ds email ws_ids false db).1 = true
    ∧ (UserAccountDeleter.delete_specific_accounts ds email ws_ids false db).2.workspaces
        = db.workspaces.filter (fun x => !(memS (adminWsOf user.id ws_ids db) x.id))
    ∧ (UserAccountDeleter.delete_specific_accounts ds email ws_ids false db).2.paths
        = db.paths.filter (fun p => !(memS (adminWsOf user.id ws_ids db) p.workspace_id))
    ∧ (UserAccountDeleter.delete_specific_accounts ds email ws_ids false db).2.components
        = db.components.filter (fun c =>
            !(db.paths.any (fun p =>
              memS (adminWsOf user.id ws_ids db) p.workspace_id && c.path_id == p.id)))
    ∧ (UserAccountDeleter.delete_specific_accounts ds email ws_ids false db).2.dataRows
        = db.dataRows.filter (fun d =>
            !(db.components.any (fun c =>
              db.paths.any (fun p =>
                memS (adminWsOf user.id ws_ids db) p.workspace_id && c.path_id == p.id)
                && d.component_id == c.id)))
    ∧ (UserAccountDeleter.delete_specific_accounts ds email ws_ids false db).2.accounts
        = db.accounts.filter (fun x =>
            !(memS (adminWsOf user.id ws_ids db) x.workspace_id)
              && !((regularAccountsOf user.id ws_ids db).any (fun i => x.id == i.id)))
    ∧ (UserAccountDeleter.delete_specific_accounts ds email ws_ids false db).2.users
        = db.users
    ∧ (∀ w, memS (adminWsOf user.id ws_ids db) w = true ↔
        ∃ acct ∈ db.accounts, acct.user_id = user.id ∧ acct.workspace_id = w
          ∧ acct.user_is_workspace_admin = true ∧ w ∈ ws_ids) := by
  have hres : UserAccountDeleter.delete_specific_accounts ds email ws_ids false db
      = (if (UserAccountDeleter.get_specific_accounts user.id ws_ids db).isEmpty
         then (true, db)
         else (true,
           { UserAccountDeleter.cascade_admin_accounts ds
               ((UserAccountDeleter.get_specific_accounts user.id ws_ids db).filter
                 (fun a => a.user_is_workspace_admin)) db with
             accounts := (delete_each (fun a : AccountRow => a.id)
               ((UserAccountDeleter.get_specific_accounts user.id ws_ids db).filter
                 (fun a => !a.user_is_workspace_admin))
               (UserAccountDeleter.cascade_admin_accounts ds
                 ((UserAccountDeleter.get_specific_accounts user.id ws_ids db).filter
                   (fun a => a.user_is_workspace_admin)) db).accounts) })) := by
    unfold UserAccountDeleter.delete_specific_accounts
    rw [huser]
    rfl
  have hbridge : ∀ w, memS (adminWsOf user.id ws_ids db) w = true ↔
      ∃ acct ∈ db.accounts, acct.user_id = user.id ∧ acct.workspace_id = w
        ∧ acct.user_is_workspace_admin = true ∧ w ∈ ws_ids :=
    fun w => memS_adminW_iff user.id ws_ids db hinv w
  rcases hN : (UserAccountDeleter.get_specific_accounts user.id ws_ids db).isEmpty
      with _ | _
  · -- some accounts matched: the execute branch runs
    rw [hN] at hres
    simp only [Bool.false_eq_true, if_false] at hres
    obtain ⟨f1, f2, f3, f4, f5, f6, f7⟩ := UAD_cascade_admin_accounts_spec ds
      ((UserAccountDeleter.get_specific_accounts user.id ws_ids db).filter
        (fun a => a.user_is_workspace_admin)) db hd hc hp ha
    rw [hres]
    refine ⟨rfl, ?_, ?_, ?_, ?_, ?_, ?_, hbridge⟩
    · show (UserAccountDeleter.cascade_admin_accounts ds
        ((UserAccountDeleter.get_specific_accounts user.id ws_ids db).filter
          (fun a => a.user_is_workspace_admin)) db).workspaces = _
      rw [f5]
      rfl
    · show (UserAccountDeleter.cascade_admin_accounts ds
        ((UserAccountDeleter.get_specific_accounts user.id ws_ids db).filter
          (fun a => a.user_is_workspace_admin)) db).paths = _
      rw [f3]
      rfl
    · show (UserAccountDeleter.cascade_admin_accounts ds
        ((UserAccountDeleter.get_specific_accounts user.id ws_ids db).filter
          (fun a => a.user_is_workspace_admin)) db).components = _
      rw [f2]
      rfl
    · show (UserAccountDeleter.cascade_admin_accounts ds
        ((UserAccountDeleter.get_specific_accounts user.id ws_ids db).filter
          (fun a => a.user_is_workspace_admin)) db).dataRows = _
      rw [f1]
      rfl
    · show delete_each (fun a : AccountRow => a.id)
        ((UserAccountDeleter.get_specific_accounts user.id ws_ids db).filter
          (fun a => !a.user_is_workspace_admin))
        (UserAccountDeleter.cascade_admin_accounts ds
          ((UserAccountDeleter.get_specific_accounts user.id ws_ids db).filter
            (fun a => a.user_is_workspace_admin)) db).accounts = _
      rw [f4, delete_each_eq_filter, List.filter_filter]
      refine List.filter_congr ?_
      intro x _
      rw [Bool.and_comm]
      rfl
    · show (UserAccountDeleter.cascade_admin_accounts ds
        ((UserAccountDeleter.get_specific_accounts user.id ws_ids db).filter
          (fun a => a.user_is_workspace_admin)) db).users = _
      rw [f6]
  · -- no account matched: success and no deletion
    rw [hN] at hres
    simp only [if_true] at hres
    have hacc : UserAccountDeleter.get_specific_accounts user.id ws_ids db = [] :=
      List.isEmpty_iff.mp hN
    have hW : adminWsOf user.id ws_ids db = [] := by
      unfold adminWsOf
      rw [hacc]
      rfl
    have hR : regularAccountsOf user.id ws_ids db = [] := by
      unfold regularAccountsOf
      rw [hacc]
      rfl
    rw [hres, hW, hR]
    refine ⟨rfl, ?_, ?_, ?_, ?_, ?_, rfl, ?_⟩
    · simp [memS_nil]
    · simp [memS_nil]
    · simp [memS_nil, any_false]
    · simp [memS_nil, any_false]
    · simp [memS_nil, any_false]
    · rw [hW] at hbridge
      exact hbridge

/-- The C9 scenario: the user is the sole admin of `ws-1` (which has a path,
a component, a data row and a second member account) and a plain member of
`ws-2`; both workspace ids are requested. -/
def dbC9 : DB :=
  { users := [{ id := "user-1", email := "a@x.com" },
              { id := "user-2", email := "b@y.com" }],
    accounts := [{ id := "acc-1", user_id := "user-1", workspace_id := "ws-1",
                   user_is_workspace_admin := true },
                 { id := "acc-2", user_id := "user-2", workspace_id := "ws-1",
                   user_is_workspace_admin := false },
                 { id := "acc-3", user_id := "user-1", workspace_id := "ws-2",
                   user_is_workspace_admin := false },
                 { id := "acc-4", user_id := "user-2", workspace_id := "ws-2",
                   user_is_workspace_admin := true }],
    workspaces := [{ id := "ws-1", name := "Proj" }, { id := "ws-2", name := "Other" }],
    paths := [{ id := "path-1", workspace_id := "ws-1", name := "Ingest",
                normalized_name := "ingest" }],
    components := [{ id := "comp-1", workspace_id := "ws-1", path_id := "path-1",
                     name := "Raw", has_data := true, has_action := false }],
    dataRows := [{ id := "data-1", component_id := "comp-1", workspace_id := some "ws-1",
                   data := "p", data_map := "m", s3_location := some "k1",
                   addToDataLake := true }],
    blobs := ["k1"], nextId := 0 }

/-- C9 (witness): the theorem evaluated on the concrete scenario state with
every hypothesis discharged by evaluation. -/
theorem C9_witness :
    (UserAccountDeleter.delete_specific_accounts true "a@x.com" ["ws-1", "ws-2"]
        false dbC9).1 = true
    ∧ (UserAccountDeleter.delete_specific_accounts true "a@x.com" ["ws-1", "ws-2"]
        false dbC9).2.workspaces
        = dbC9.workspaces.filter (fun x =>
            !(memS (adminWsOf "user-1" ["ws-1", "ws-2"] dbC9) x.id))
    ∧ (UserAccountDeleter.delete_specific_accounts true "a@x.com" ["ws-1", "ws-2"]
        false dbC9).2.paths
        = dbC9.paths.filter (fun p =>
            !(memS (adminWsOf "user-1" ["ws-1", "ws-2"] dbC9) p.workspace_id))
    ∧ (UserAccountDeleter.delete_specific_accounts true "a@x.com" ["ws-1", "ws-2"]
        false dbC9).2.components
        = dbC9.components.filter (fun c =>
            !(dbC9.paths.any (fun p =>
              memS (adminWsOf "user-1" ["ws-1", "ws-2"] dbC9) p.workspace_id
                && c.path_id == p.id)))
    ∧ (UserAccountDeleter.delete_specific_accounts true "a@x.com" ["ws-1", "ws-2"]
        false dbC9).2.dataRows
        = dbC9.dataRows.filter (fun d =>
            !(dbC9.components.any (fun c =>
              dbC9.paths.any (fun p =>
                memS (adminWsOf "user-1" ["ws-1", "ws-2"] dbC9) p.workspace_id
                  && c.path_id == p.id) && d.component_id == c.id)))
    ∧ (UserAccountDeleter.delete_specific_accounts true "a@x.com" ["ws-1", "ws-2"]
        false dbC9).2.accounts
        = dbC9.accounts.filter (fun x =>
            !(memS (adminWsOf "user-1" ["ws-1", "ws-2"] dbC9) x.workspace_id)
              && !((regularAccountsOf "user-1" ["ws-1", "ws-2"] dbC9).any
                (fun i => x.id == i.id)))
    ∧ (UserAccountDeleter.delete_specific_accounts true "a@x.com" ["ws-1", "ws-2"]
        false dbC9).2.users = dbC9.users
    ∧ (∀ w, memS (adminWsOf "user-1" ["ws-1", "ws-2"] dbC9) w = true ↔
        ∃ acct ∈ dbC9.accounts, acct.user_id = "user-1" ∧ acct.workspace_id = w
          ∧ acct.user_is_workspace_admin = true ∧ w ∈ ["ws-1", "ws-2"]) :=
  C9_delete_specific_accounts true "a@x.com" ["ws-1", "ws-2"] dbC9
    { id := "user-1", email := "a@x.com" } rfl (by decide) (by decide) (by decide)
    (by decide) (by decide)

end Liquid
